import Mathlib

/-
Verification of the in-memory mock Jira client
(src/jira_assistant_skills_lib/mock_responses.py, class MockJiraClient).

Python strings are modelled as lists of characters, Python dicts as
insertion-ordered association lists, JSON-like field values as an inductive
type, and each client method as a pure function from the client state to a
result-or-exception together with the successor state.
-/

set_option autoImplicit false

namespace JiraMock

/-- A Python string: a list of characters. -/
abbrev Str := List Char

/-- Shorthand turning a Lean string literal into a character list. -/
def S (s : String) : Str := s.data

/-- Python str.upper (ASCII case mapping, character-wise). -/
def up (s : Str) : Str := s.map Char.toUpper

/-- Python str.lower (ASCII case mapping, character-wise). -/
def low (s : Str) : Str := s.map Char.toLower

/-- Does s start with pat (Python str.startswith)? -/
def startsWith : Str → Str → Bool
  | _, [] => true
  | [], _ :: _ => false
  | c :: t, p :: ps => c = p && startsWith t ps

/-- Python substring test: pat in s. -/
def containsSub : Str → Str → Bool
  | s, pat =>
    startsWith s pat ||
      match s with
      | [] => false
      | _ :: t => containsSub t pat

/-- When startsWith holds, the pattern is no longer than the string
(used for the termination of replaceSub). -/
def startsWithLenLe : ∀ {s pat : Str}, startsWith s pat = true → pat.length ≤ s.length := by
  intro s pat
  induction s generalizing pat with
  | nil =>
    intro h
    cases pat with
    | nil => simp
    | cons p ps => simp [startsWith] at h
  | cons c t ih =>
    intro h
    cases pat with
    | nil => simp
    | cons p ps =>
      simp only [startsWith, Bool.and_eq_true] at h
      have := ih h.2
      simp only [List.length_cons]
      omega

/-- The structural worker of replaceSub; the fuel dominates the length of
the string still to scan, so every recursive call keeps it sufficient. -/
def replaceAux (pat rep : Str) : Nat → Str → Str
  | 0, s => s
  | f + 1, s =>
    match s with
    | [] => []
    | c :: t =>
      if pat ≠ [] ∧ startsWith (c :: t) pat then
        rep ++ replaceAux pat rep f ((c :: t).drop pat.length)
      else
        c :: replaceAux pat rep f t

/-- Python str.replace: replace every non-overlapping occurrence of pat
(scanning left to right) by rep.  The source never calls replace with an
empty pattern, which this definition leaves unreplaced. -/
def replaceSub (s pat rep : Str) : Str := replaceAux pat rep s.length s

/-- The association-list lookup of a Python dict access d.get(k). -/
def dictGet {α : Type} : List (Str × α) → Str → Option α
  | [], _ => none
  | (k', v) :: t, k => if k' = k then some v else dictGet t k

/-- Python k in d. -/
def dictContains {α : Type} (d : List (Str × α)) (k : Str) : Bool :=
  (dictGet d k).isSome

/-- Python d.get(k, dflt). -/
def dictGetD {α : Type} (d : List (Str × α)) (k : Str) (dflt : α) : α :=
  (dictGet d k).getD dflt

/-- Python d[k] = v: replace in place when the key exists (keeping its
insertion position), append otherwise. -/
def dictSet {α : Type} : List (Str × α) → Str → α → List (Str × α)
  | [], k, v => [(k, v)]
  | (k', v') :: t, k, v =>
    if k' = k then (k, v) :: t else (k', v') :: dictSet t k v

/-- Python del d[k] (dict keys are unique, so filtering is removal). -/
def dictRemove {α : Type} (d : List (Str × α)) (k : Str) : List (Str × α) :=
  d.filter (fun p => p.1 ≠ k)

/-- Normalise one Python slice index against a list length (negative indices
count from the end, out-of-range indices clamp). -/
def normIdx (n : Nat) (i : Int) : Nat :=
  if i < 0 then (max ((n : Int) + i) 0).toNat else min i.toNat n

/-- Python list slice xs[a:b]. -/
def pySlice {α : Type} (xs : List α) (a b : Int) : List α :=
  (xs.take (normIdx xs.length b)).drop (normIdx xs.length a)

/-- The decimal digit character for d < 10. -/
def digitChar (d : Nat) : Char :=
  match d with
  | 0 => '0' | 1 => '1' | 2 => '2' | 3 => '3' | 4 => '4'
  | 5 => '5' | 6 => '6' | 7 => '7' | 8 => '8' | _ => '9'

/-- The structural worker of natToDec; any fuel above the number keeps the
recursion total. -/
def natToDecAux : Nat → Nat → Str
  | 0, _ => []
  | f + 1, n =>
    if n < 10 then [digitChar n]
    else natToDecAux f (n / 10) ++ [digitChar (n % 10)]

/-- Decimal rendering of a natural number (Python str(n) for n ≥ 0). -/
def natToDec (n : Nat) : Str := natToDecAux (n + 1) n

/-- Decimal rendering of an integer (Python str(i)). -/
def intToDec (i : Int) : Str :=
  if i < 0 then '-' :: natToDec (-i).toNat else natToDec i.toNat

/-- Numeric value of a decimal digit character. -/
def decDigit (c : Char) : Nat := c.toNat - 48

/-- Numeric value of a string of decimal digits. -/
def decToNat (s : Str) : Nat := s.foldl (fun a c => 10 * a + decDigit c) 0

/-- A JSON-like Python value, as stored in the mock client's dictionaries. -/
inductive JVal : Type where
  | null
  | bool (b : Bool)
  | num (n : Int)
  | str (s : Str)
  | arr (elts : List JVal)
  | obj (entries : List (Str × JVal))

/-- Modelled from the spec: the repository's error classes NotFoundError,
ValidationError, AuthenticationError and the generic JiraError live in an
error_handler module whose file is not among the sources; the spec's error
taxonomy names exactly these four.  The py-prefixed constructors stand for
Python built-in exceptions (AttributeError, KeyError, TypeError), which are
not part of that taxonomy. -/
inductive Err : Type where
  | notFound (msg : Str)
  | validation (msg : Str)
  | authentication (msg : Str)
  | jira (msg : Str)
  | pyAttributeError (msg : Str)
  | pyKeyError (msg : Str)
  | pyTypeError (msg : Str)
deriving DecidableEq

/-- Python truthiness of a JSON-like value. -/
def pyTruthy : JVal → Bool
  | .null => false
  | .bool b => b
  | .num n => n != 0
  | .str s => !s.isEmpty
  | .arr xs => !xs.isEmpty
  | .obj kvs => !kvs.isEmpty

/-- Python v.get(k) on an arbitrary value: dictionary lookup defaulting to
None when v is a dict, AttributeError otherwise. -/
def pyGet0 (v : JVal) (k : Str) : Except Err JVal :=
  match v with
  | .obj kvs => .ok (dictGetD kvs k JVal.null)
  | _ => .error (.pyAttributeError (S ("object has no attribute get")))

/-- Python v.get(k, dflt) on an arbitrary value. -/
def pyGetD (v : JVal) (k : Str) (dflt : JVal) : Except Err JVal :=
  match v with
  | .obj kvs => .ok (dictGetD kvs k dflt)
  | _ => .error (.pyAttributeError (S ("object has no attribute get")))

/-- Python v[k] on an arbitrary value: KeyError when the key is missing,
TypeError when v is not a dict. -/
def jIndex (v : JVal) (k : Str) : Except Err JVal :=
  match v with
  | .obj kvs =>
    match dictGet kvs k with
    | some x => .ok x
    | none => .error (.pyKeyError k)
  | _ => .error (.pyTypeError (S ("object is not subscriptable")))

/-- Python v.lower() on an arbitrary value: AttributeError when v is not a
string. -/
def pyLower (v : JVal) : Except Err JVal :=
  match v with
  | .str s => .ok (.str (low s))
  | _ => .error (.pyAttributeError (S ("object has no attribute lower")))

/-- Python v == s for a string literal s: equal strings, and False for any
non-string value. -/
def jEqStr (v : JVal) (s : Str) : Bool :=
  match v with
  | .str t => t = s
  | _ => false

mutual

/-- Python repr of a JSON-like value (strings in single quotes; the mock
only ever formats strings and numbers this way). -/
def pyRepr : JVal → Str
  | .null => S ("None")
  | .bool true => S ("True")
  | .bool false => S ("False")
  | .num n => intToDec n
  | .str s => '\'' :: s ++ ['\'']
  | .arr xs => '[' :: pyReprList xs ++ [']']
  | .obj kvs => Char.ofNat 123 :: pyReprEntries kvs ++ [Char.ofNat 125]

/-- Comma-separated reprs of list elements. -/
def pyReprList : List JVal → Str
  | [] => []
  | [x] => pyRepr x
  | x :: y :: t => pyRepr x ++ S (", ") ++ pyReprList (y :: t)

/-- Comma-separated reprs of dict entries. -/
def pyReprEntries : List (Str × JVal) → Str
  | [] => []
  | [(k, v)] => ('\'' :: k ++ ['\'']) ++ S (": ") ++ pyRepr v
  | (k, v) :: e :: t =>
    ('\'' :: k ++ ['\'']) ++ S (": ") ++ pyRepr v ++ S (", ") ++ pyReprEntries (e :: t)

end

/-- Python str(v) as used in an f-string: the string itself for strings,
repr-like rendering otherwise. -/
def pyStr : JVal → Str
  | .str s => s
  | v => pyRepr v

/-- Leftmost occurrence of a maximal run of decimal digits followed
immediately by the character c, returning its numeric value: the Python
regex search for digits captured before c used by _parse_time_to_seconds. -/
def findNumBefore (c : Char) : Str → Option Nat
  | [] => none
  | a :: t =>
    if a.isDigit then
      let ds := (a :: t).takeWhile Char.isDigit
      let rest := (a :: t).dropWhile Char.isDigit
      match rest with
      | b :: _ => if b = c then some (decToNat ds) else findNumBefore c t
      | [] => findNumBefore c t
    else findNumBefore c t

/-- MockJiraClient._parse_time_to_seconds: parse the JIRA time format
(weeks, days, hours, minutes) into seconds. -/
def parseTimeToSeconds (timeStr : Str) : Nat :=
  if timeStr.isEmpty then 0
  else
    (match findNumBefore 'w' timeStr with
     | some n => n * 5 * 8 * 3600
     | none => 0) +
    (match findNumBefore 'd' timeStr with
     | some n => n * 8 * 3600
     | none => 0) +
    (match findNumBefore 'h' timeStr with
     | some n => n * 3600
     | none => 0) +
    (match findNumBefore 'm' timeStr with
     | some n => n * 60
     | none => 0)

/-- A Python regex whitespace character (ASCII). -/
def pySpace (c : Char) : Bool :=
  c = ' ' || c = '\t' || c = '\n' || c = '\r' || c = Char.ofNat 11 || c = Char.ofNat 12

/-- A quote character, single or double, as in the character class of the
text-search regexes. -/
def isQuote (c : Char) : Bool := c = '"' || c = '\''

/-- Match the tail of the regex KEYWORD\s*~\s*["»]([^"»]+)["»] at the start
of s (s is the text after the keyword), returning the capture. -/
def matchTildeAt (s : Str) : Option Str :=
  match s.dropWhile pySpace with
  | '~' :: s2 =>
    match s2.dropWhile pySpace with
    | q :: s4 =>
      if isQuote q then
        let cap := s4.takeWhile (fun c => !isQuote c)
        let rest := s4.dropWhile (fun c => !isQuote c)
        match rest, cap with
        | _ :: _, _ :: _ => some cap
        | _, _ => none
      else none
    | [] => none
  | _ => none

/-- Match the tail of the regex KEYWORD\s*=\s*(\w+-\d+) at the start of s,
returning the captured issue key. -/
def matchEqKeyAt (s : Str) : Option Str :=
  match s.dropWhile pySpace with
  | '=' :: s2 =>
    let s3 := s2.dropWhile pySpace
    let w := s3.takeWhile (fun c => c.isAlphanum || c = '_')
    match s3.dropWhile (fun c => c.isAlphanum || c = '_'), w with
    | '-' :: s5, _ :: _ =>
      let ds := s5.takeWhile Char.isDigit
      match ds with
      | [] => none
      | _ :: _ => some (w ++ '-' :: ds)
    | _, _ => none
  | _ => none

/-- Case-insensitive leftmost scan for the keyword kw (given upper-cased)
followed by a tail that the given matcher accepts: the shape of the
re.search calls in MockJiraClient.search_issues. -/
def findKwThen (kw : Str) (after : Str → Option Str) : Str → Option Str
  | [] => none
  | c :: t =>
    if up ((c :: t).take kw.length) = kw then
      match after ((c :: t).drop kw.length) with
      | some r => some r
      | none => findKwThen kw after t
    else findKwThen kw after t

/-- MockJiraClient._seconds_to_time_str: render seconds in the JIRA time
format. -/
def secondsToTimeStr (seconds : Nat) : Str :=
  if seconds = 0 then S ("0m")
  else
    let hours := seconds / 3600
    let minutes := (seconds % 3600) / 60
    if hours ≠ 0 ∧ minutes ≠ 0 then
      natToDec hours ++ S ("h ") ++ natToDec minutes ++ S ("m")
    else if hours ≠ 0 then
      natToDec hours ++ S ("h")
    else
      natToDec minutes ++ S ("m")

/-- An issue record of the mock store: the fixed top-level dict keys of every
issue the mock builds ("key", "id", "self", "fields"), plus the extra keys
carried only by service-desk issues. -/
structure Issue where
  key : Str
  id : Str
  selfUrl : Str
  fields : List (Str × JVal)
  requestTypeId : Option Str := none
  serviceDeskId : Option Str := none
  currentStatus : Option JVal := none

/-- A comment record as built by MockJiraClient.add_comment. -/
structure Comment where
  id : Str
  body : JVal
  author : JVal
  created : Str
  updated : Str
  visibility : Option JVal := none

/-- A worklog record as built by MockJiraClient.add_worklog. -/
structure Worklog where
  id : Str
  timeSpent : Str
  timeSpentSeconds : Nat
  started : Str
  comment : Option JVal
  author : JVal
  created : Str
  updated : Str

/-- A sprint record of the mock store. -/
structure Sprint where
  id : Int
  selfUrl : Str
  name : Str
  state : Str
  startDate : Str
  endDate : Str
  originBoardId : Int
  goal : Str

/-- An entry of the static TRANSITIONS table. -/
structure TransitionEntry where
  id : Str
  name : Str
  toStatus : JVal -- the "to" key of the source table

/-- An entry of the static QUEUES table. -/
structure Queue where
  id : Str
  name : Str
  issueCount : Nat

/-- The dictionary search_issues returns. -/
structure SearchResult where
  startAt : Int
  maxResults : Int
  total : Nat
  issues : List Issue
  isLast : Bool
  nextPageToken : Option Str

/-- The dictionary get_comments returns. -/
structure CommentsPage where
  startAt : Int
  maxResults : Int
  total : Nat
  comments : List Comment

/-- The dictionary get_queue_issues returns. -/
structure QueuePage where
  size : Nat
  start : Int
  limit : Int
  isLastPage : Bool
  values : List Issue

/-- The MockJiraClient constructor arguments (all optional in the source). -/
structure Args where
  baseUrl : Str
  email : Str
  apiToken : Str
  timeout : Int
  maxRetries : Int
  retryBackoff : Rat

/-- The constructor defaults. -/
def defaultArgs : Args where
  baseUrl := S ("https://mock.atlassian.net")
  email := S ("test@example.com")
  apiToken := S ("mock-token")
  timeout := 30
  maxRetries := 3
  retryBackoff := 2

/-- The USERS class constant. -/
def USERS : List (Str × JVal) :=
  [ (S ("abc123"), .obj
      [ (S ("accountId"), .str (S ("abc123")))
      , (S ("displayName"), .str (S ("Jason Krueger")))
      , (S ("emailAddress"), .str (S ("jasonkrue@gmail.com")))
      , (S ("active"), .bool true) ])
  , (S ("def456"), .obj
      [ (S ("accountId"), .str (S ("def456")))
      , (S ("displayName"), .str (S ("Jane Manager")))
      , (S ("emailAddress"), .str (S ("jane@example.com")))
      , (S ("active"), .bool true) ])
  , (S ("ghi789"), .obj
      [ (S ("accountId"), .str (S ("ghi789")))
      , (S ("displayName"), .str (S ("Admin User")))
      , (S ("emailAddress"), .str (S ("admin@example.com")))
      , (S ("active"), .bool true) ]) ]

/-- The TRANSITIONS class constant. -/
def TRANSITIONS : List TransitionEntry :=
  [ { id := S ("11"), name := S ("To Do")
    , toStatus := .obj [(S ("name"), .str (S ("To Do"))), (S ("id"), .str (S ("10000")))] }
  , { id := S ("21"), name := S ("In Progress")
    , toStatus := .obj [(S ("name"), .str (S ("In Progress"))), (S ("id"), .str (S ("10001")))] }
  , { id := S ("31"), name := S ("Done")
    , toStatus := .obj [(S ("name"), .str (S ("Done"))), (S ("id"), .str (S ("10002")))] } ]

/-- The QUEUES class constant (queues of service desk "1"). -/
def QUEUES : List (Str × List Queue) :=
  [ (S ("1"),
     [ { id := S ("1"), name := S ("All open"), issueCount := 5 }
     , { id := S ("2"), name := S ("Assigned to me"), issueCount := 0 }
     , { id := S ("3"), name := S ("Unassigned"), issueCount := 5 } ]) ]

/-- The priority_id_map of create_issue. -/
def priorityIdMap : List (Str × JVal) :=
  [ (S ("Highest"), .str (S ("1")))
  , (S ("High"), .str (S ("2")))
  , (S ("Medium"), .str (S ("3")))
  , (S ("Low"), .str (S ("4")))
  , (S ("Lowest"), .str (S ("5"))) ]

/-- An ADF document of one paragraph of one text node, the shape of every
seeded description. -/
def adfDoc (text : Str) : JVal :=
  .obj
    [ (S ("type"), .str (S ("doc")))
    , (S ("version"), .num 1)
    , (S ("content"), .arr
        [ .obj
            [ (S ("type"), .str (S ("paragraph")))
            , (S ("content"), .arr
                [ .obj [(S ("type"), .str (S ("text"))), (S ("text"), .str text)] ]) ] ]) ]

/-- The zeroed timetracking object the seeded issues share. -/
def tt0 : JVal :=
  .obj
    [ (S ("originalEstimate"), .str (S ("0m")))
    , (S ("remainingEstimate"), .str (S ("0m")))
    , (S ("originalEstimateSeconds"), .num 0)
    , (S ("remainingEstimateSeconds"), .num 0) ]

/-- The status object for "To Do". -/
def statusToDo : JVal :=
  .obj [(S ("name"), .str (S ("To Do"))), (S ("id"), .str (S ("10000")))]

/-- The status object the seeded service-desk issues carry. -/
def statusWaiting : JVal :=
  .obj [(S ("name"), .str (S ("Waiting for support"))), (S ("id"), .str (S ("10100")))]

/-- The project object of the DEMO project. -/
def projDemo : JVal :=
  .obj [ (S ("key"), .str (S ("DEMO"))), (S ("name"), .str (S ("Demo Project")))
       , (S ("id"), .str (S ("10000"))) ]

/-- The project object of the DEMOSD project. -/
def projDemoSd : JVal :=
  .obj [ (S ("key"), .str (S ("DEMOSD"))), (S ("name"), .str (S ("Demo Service Desk")))
       , (S ("id"), .str (S ("10001"))) ]

/-- Jason Krueger as an assignee (with email). -/
def assigneeJason : JVal :=
  .obj [ (S ("accountId"), .str (S ("abc123")))
       , (S ("displayName"), .str (S ("Jason Krueger")))
       , (S ("emailAddress"), .str (S ("jasonkrue@gmail.com"))) ]

/-- Jane Manager as an assignee (with email). -/
def assigneeJane : JVal :=
  .obj [ (S ("accountId"), .str (S ("def456")))
       , (S ("displayName"), .str (S ("Jane Manager")))
       , (S ("emailAddress"), .str (S ("jane@example.com"))) ]

/-- Jason Krueger as a reporter (no email). -/
def reporterJason : JVal :=
  .obj [ (S ("accountId"), .str (S ("abc123")))
       , (S ("displayName"), .str (S ("Jason Krueger"))) ]

/-- The seeded timestamp of the initial issues. -/
def seedTime : Str := S ("2025-01-01T10:00:00.000+0000")

/-- The currentStatus object of the seeded service-desk issues. -/
def currentWaiting : JVal :=
  .obj [ (S ("status"), .str (S ("Waiting for support")))
       , (S ("statusCategory"), .str (S ("new"))) ]

/-- The common field block of a seeded DEMO issue, in source order. -/
def demoFields (summary : Str) (description : JVal) (itype : Str) (itypeId : Str)
    (prio : Str) (prioId : Str) (assignee : JVal) (reporter : JVal) : List (Str × JVal) :=
  [ (S ("summary"), .str summary)
  , (S ("description"), description)
  , (S ("issuetype"), .obj [(S ("name"), .str itype), (S ("id"), .str itypeId)])
  , (S ("status"), statusToDo)
  , (S ("priority"), .obj [(S ("name"), .str prio), (S ("id"), .str prioId)])
  , (S ("assignee"), assignee)
  , (S ("reporter"), reporter)
  , (S ("project"), projDemo)
  , (S ("created"), .str seedTime)
  , (S ("updated"), .str seedTime)
  , (S ("labels"), .arr [.str (S ("demo"))]) ]

/-- A seeded DEMOSD service-desk issue. -/
def demoSdIssue (baseUrl : Str) (n : Nat) (idStr : Str) (summary : Str) (descText : Str)
    (itype : Str) (itypeId : Str) (prio : Str) (prioId : Str) (reporter : JVal)
    (requestType : Str) : Str × Issue :=
  (S ("DEMOSD-") ++ natToDec n,
   { key := S ("DEMOSD-") ++ natToDec n
   , id := idStr
   , selfUrl := baseUrl ++ S ("/rest/api/3/issue/") ++ idStr
   , fields :=
       [ (S ("summary"), .str summary)
       , (S ("description"), adfDoc descText)
       , (S ("issuetype"), .obj [(S ("name"), .str itype), (S ("id"), .str itypeId)])
       , (S ("status"), statusWaiting)
       , (S ("priority"), .obj [(S ("name"), .str prio), (S ("id"), .str prioId)])
       , (S ("assignee"), .null)
       , (S ("reporter"), reporter)
       , (S ("project"), projDemoSd)
       , (S ("created"), .str seedTime)
       , (S ("updated"), .str seedTime)
       , (S ("labels"), .arr [.str (S ("demo"))]) ]
   , requestTypeId := some requestType
   , serviceDeskId := some (S ("1"))
   , currentStatus := some currentWaiting })

/-- MockJiraClient._init_issues: the seeded issue store, in insertion
order. -/
def initIssues (baseUrl : Str) : List (Str × Issue) :=
  [ (S ("DEMO-84"),
     { key := S ("DEMO-84"), id := S ("10084")
     , selfUrl := baseUrl ++ S ("/rest/api/3/issue/10084")
     , fields :=
         demoFields (S ("Product Launch")) (adfDoc (S ("Epic for product launch activities")))
           (S ("Epic")) (S ("10000")) (S ("High")) (S ("2")) assigneeJason reporterJason
         ++ [(S ("timetracking"), tt0)] })
  , (S ("DEMO-85"),
     { key := S ("DEMO-85"), id := S ("10085")
     , selfUrl := baseUrl ++ S ("/rest/api/3/issue/10085")
     , fields :=
         demoFields (S ("User Authentication")) .null
           (S ("Story")) (S ("10001")) (S ("High")) (S ("2")) assigneeJason reporterJason
         ++ [ (S ("customfield_10014"), .str (S ("DEMO-84")))
            , (S ("customfield_10016"), .num 8)
            , (S ("timetracking"), tt0) ] })
  , (S ("DEMO-86"),
     { key := S ("DEMO-86"), id := S ("10086")
     , selfUrl := baseUrl ++ S ("/rest/api/3/issue/10086")
     , fields :=
         [ (S ("summary"), .str (S ("Login fails on mobile Safari")))
         , (S ("description"), adfDoc (S ("Users report login button not responsive on iOS Safari.\n\nSteps to reproduce:\n1. Open app in Safari on iPhone\n2. Enter credentials\n3. Tap Login button\n\nExpected: User logs in\nActual: Nothing happens")))
         , (S ("issuetype"), .obj [(S ("name"), .str (S ("Bug"))), (S ("id"), .str (S ("10002")))])
         , (S ("status"), statusToDo)
         , (S ("priority"), .obj [(S ("name"), .str (S ("High"))), (S ("id"), .str (S ("2")))])
         , (S ("assignee"), assigneeJane)
         , (S ("reporter"), reporterJason)
         , (S ("project"), projDemo)
         , (S ("created"), .str seedTime)
         , (S ("updated"), .str seedTime)
         , (S ("labels"), .arr [.str (S ("demo")), .str (S ("mobile")), .str (S ("safari"))])
         , (S ("components"), .arr
             [ .obj [(S ("id"), .str (S ("10000"))), (S ("name"), .str (S ("Mobile")))]
             , .obj [(S ("id"), .str (S ("10001"))), (S ("name"), .str (S ("Authentication")))] ])
         , (S ("timetracking"), tt0) ] })
  , (S ("DEMO-87"),
     { key := S ("DEMO-87"), id := S ("10087")
     , selfUrl := baseUrl ++ S ("/rest/api/3/issue/10087")
     , fields :=
         demoFields (S ("Update API documentation")) .null
           (S ("Task")) (S ("10003")) (S ("Medium")) (S ("3")) assigneeJane reporterJason
         ++ [(S ("timetracking"), tt0)] })
  , (S ("DEMO-88"),
     { key := S ("DEMO-88"), id := S ("10088")
     , selfUrl := baseUrl ++ S ("/rest/api/3/issue/10088")
     , fields :=
         demoFields (S ("Dashboard redesign")) .null
           (S ("Story")) (S ("10001")) (S ("Medium")) (S ("3")) assigneeJason reporterJason
         ++ [(S ("timetracking"), tt0)] })
  , (S ("DEMO-89"),
     { key := S ("DEMO-89"), id := S ("10089")
     , selfUrl := baseUrl ++ S ("/rest/api/3/issue/10089")
     , fields :=
         demoFields (S ("Performance optimization")) .null
           (S ("Task")) (S ("10003")) (S ("Medium")) (S ("3")) assigneeJason reporterJason
         ++ [(S ("timetracking"), tt0)] })
  , (S ("DEMO-90"),
     { key := S ("DEMO-90"), id := S ("10090")
     , selfUrl := baseUrl ++ S ("/rest/api/3/issue/10090")
     , fields :=
         demoFields (S ("Add dark mode support")) .null
           (S ("Story")) (S ("10001")) (S ("Low")) (S ("4")) assigneeJason reporterJason
         ++ [(S ("timetracking"), tt0)] })
  , (S ("DEMO-91"),
     { key := S ("DEMO-91"), id := S ("10091")
     , selfUrl := baseUrl ++ S ("/rest/api/3/issue/10091")
     , fields :=
         demoFields (S ("Search pagination bug")) .null
           (S ("Bug")) (S ("10002")) (S ("Medium")) (S ("3")) assigneeJason assigneeJane
         ++ [(S ("timetracking"), tt0)] })
  , demoSdIssue baseUrl 1 (S ("20001")) (S ("Can't connect to VPN"))
      (S ("I'm working from home and can't connect to the corporate VPN. Getting 'connection timeout' error."))
      (S ("IT help")) (S ("10100")) (S ("Medium")) (S ("3")) assigneeJason (S ("1"))
  , demoSdIssue baseUrl 2 (S ("20002")) (S ("New laptop for development"))
      (S ("Need a new development laptop with 32GB RAM and SSD."))
      (S ("Computer support")) (S ("10101")) (S ("Medium")) (S ("3")) assigneeJason (S ("2"))
  , demoSdIssue baseUrl 3 (S ("20003")) (S ("New hire starting Monday - Alex Chen"))
      (S ("Please set up accounts and equipment for new hire Alex Chen starting Monday."))
      (S ("New employee")) (S ("10102")) (S ("High")) (S ("2")) assigneeJane (S ("3"))
  , demoSdIssue baseUrl 4 (S ("20004")) (S ("Conference travel to AWS re:Invent"))
      (S ("Requesting approval for travel to AWS re:Invent in Las Vegas."))
      (S ("Travel request")) (S ("10103")) (S ("Medium")) (S ("3")) assigneeJason (S ("4"))
  , demoSdIssue baseUrl 5 (S ("20005")) (S ("Purchase ergonomic keyboard"))
      (S ("Need to purchase an ergonomic keyboard for RSI prevention. Estimated cost: $150."))
      (S ("Purchase over $100")) (S ("10104")) (S ("Low")) (S ("4")) assigneeJason (S ("5")) ]

/-- MockJiraClient._init_sprints. -/
def initSprints (baseUrl : Str) : List Sprint :=
  [ { id := 1
    , selfUrl := baseUrl ++ S ("/rest/agile/1.0/sprint/1")
    , name := S ("Sprint 1")
    , state := S ("active")
    , startDate := S ("2025-01-01T00:00:00.000Z")
    , endDate := S ("2025-01-14T00:00:00.000Z")
    , originBoardId := 1
    , goal := S ("Complete MVP features") } ]

/-- The mutable state a MockJiraClient instance holds after __init__. -/
structure State where
  baseUrl : Str
  email : Str
  apiToken : Str
  timeout : Int
  maxRetries : Int
  retryBackoff : Rat
  nextIssueId : Nat
  issues : List (Str × Issue)
  comments : List (Str × List Comment)
  worklogs : List (Str × List Worklog)
  sprints : List Sprint
  sprintIssues : List (Int × List Str)
  watchers : List (Str × List Str)
  issueLinks : List (Str × List JVal)
  nextLinkId : Nat

/-- MockJiraClient.__init__. -/
def initState (a : Args) : State where
  baseUrl := a.baseUrl
  email := a.email
  apiToken := a.apiToken
  timeout := a.timeout
  maxRetries := a.maxRetries
  retryBackoff := a.retryBackoff
  nextIssueId := 100
  issues := initIssues a.baseUrl
  comments := []
  worklogs := []
  sprints := initSprints a.baseUrl
  sprintIssues := [(1, [S ("DEMO-85"), S ("DEMO-86")])]
  watchers := []
  issueLinks := []
  nextLinkId := 1000

/-- The NotFoundError message for a missing issue. -/
def issueNotFound (k : Str) : Err :=
  .notFound (S ("Issue ") ++ k ++ S (" not found"))

/-- MockJiraClient.get_issue. -/
def getIssue (st : State) (k : Str) : Except Err Issue × State :=
  match dictGet st.issues k with
  | none => (.error (issueNotFound k), st)
  | some i => (.ok i, st)

/-- MockJiraClient.update_issue (the fields parameter; a None or empty dict
is the empty list, and the update parameter is never consulted). -/
def updateIssue (st : State) (k : Str) (fields : List (Str × JVal)) :
    Except Err JVal × State :=
  match dictGet st.issues k with
  | none => (.error (issueNotFound k), st)
  | some i =>
    if fields.isEmpty then (.ok (.obj []), st)
    else
      let newFields := fields.foldl (fun fs kv => dictSet fs kv.1 kv.2) i.fields
      (.ok (.obj []),
       { st with issues := dictSet st.issues k ({ i with fields := newFields }) })

/-- MockJiraClient.delete_issue. -/
def deleteIssue (st : State) (k : Str) : Except Err Unit × State :=
  match dictGet st.issues k with
  | none => (.error (issueNotFound k), st)
  | some _ => (.ok (), { st with issues := dictRemove st.issues k })

/-- MockJiraClient.assign_issue. -/
def assignIssue (st : State) (k : Str) (accountId : Option Str) :
    Except Err Unit × State :=
  match dictGet st.issues k with
  | none => (.error (issueNotFound k), st)
  | some i =>
    let a : JVal :=
      match accountId with
      | none => .null
      | some aid =>
        match dictGet USERS aid with
        | some u => u
        | none => .obj [ (S ("accountId"), .str aid)
                       , (S ("displayName"), .str (S ("Unknown User"))) ]
    (.ok (),
     { st with issues :=
         dictSet st.issues k ({ i with fields := dictSet i.fields (S ("assignee")) a }) })

/-- MockJiraClient.transition_issue: linear scan of the TRANSITIONS table,
setting the status to the entry's "to" object on the first id match. -/
def transitionIssue (st : State) (k tid : Str) : Except Err Unit × State :=
  match dictGet st.issues k with
  | none => (.error (issueNotFound k), st)
  | some i =>
    match TRANSITIONS.find? (fun t => decide (t.id = tid)) with
    | some t =>
      (.ok (),
       { st with issues :=
           dictSet st.issues k ({ i with fields := dictSet i.fields (S ("status")) t.toStatus }) })
    | none => (.ok (), st)

/-- MockJiraClient.add_comment. -/
def addComment (st : State) (k : Str) (body : JVal) (visibility : Option JVal) :
    Except Err Comment × State :=
  match dictGet st.issues k with
  | none => (.error (issueNotFound k), st)
  | some _ =>
    let cs := dictGetD st.comments k []
    let c : Comment :=
      { id := natToDec (cs.length + 1)
      , body := body
      , author := dictGetD USERS (S ("abc123")) .null
      , created := S ("2025-01-08T10:00:00.000+0000")
      , updated := S ("2025-01-08T10:00:00.000+0000")
      , visibility := visibility }
    (.ok c, { st with comments := dictSet st.comments k (cs ++ [c]) })

/-- MockJiraClient.get_comments. -/
def getComments (st : State) (k : Str) (startAt maxResults : Int) :
    Except Err CommentsPage × State :=
  match dictGet st.issues k with
  | none => (.error (issueNotFound k), st)
  | some _ =>
    let cs := dictGetD st.comments k []
    (.ok { startAt := startAt, maxResults := maxResults, total := cs.length
         , comments := pySlice cs startAt (startAt + maxResults) }, st)

/-- MockJiraClient.delete_comment: filters the comment list, never failing
on an unknown comment id. -/
def deleteComment (st : State) (k cid : Str) : Except Err Unit × State :=
  match dictGet st.issues k with
  | none => (.error (issueNotFound k), st)
  | some _ =>
    let cs := dictGetD st.comments k []
    (.ok (), { st with comments := dictSet st.comments k (cs.filter (fun c => c.id ≠ cid)) })

/-- MockJiraClient.add_worklog (the adjust_estimate family of parameters is
never consulted). -/
def addWorklog (st : State) (k : Str) (timeSpent : Str) (started : Option Str)
    (comment : Option JVal) : Except Err Worklog × State :=
  match dictGet st.issues k with
  | none => (.error (issueNotFound k), st)
  | some _ =>
    let ws := dictGetD st.worklogs k []
    let w : Worklog :=
      { id := natToDec (ws.length + 1)
      , timeSpent := timeSpent
      , timeSpentSeconds := parseTimeToSeconds timeSpent
      , started :=
          match started with
          | some s => if s.isEmpty then S ("2025-01-08T10:00:00.000+0000") else s
          | none => S ("2025-01-08T10:00:00.000+0000")
      , comment := comment
      , author := dictGetD USERS (S ("abc123")) .null
      , created := S ("2025-01-08T10:00:00.000+0000")
      , updated := S ("2025-01-08T10:00:00.000+0000") }
    (.ok w, { st with worklogs := dictSet st.worklogs k (ws ++ [w]) })

/-- MockJiraClient.delete_worklog: the worklog list is filtered first and
NotFoundError raised afterwards when nothing was removed. -/
def deleteWorklog (st : State) (k wid : Str) : Except Err Unit × State :=
  match dictGet st.issues k with
  | none => (.error (issueNotFound k), st)
  | some _ =>
    let ws := dictGetD st.worklogs k []
    let filtered := ws.filter (fun w => w.id ≠ wid)
    let st' := { st with worklogs := dictSet st.worklogs k filtered }
    if filtered.length = ws.length then
      (.error (.notFound (S ("Worklog ") ++ wid ++ S (" not found"))), st')
    else
      (.ok (), st')

/-- MockJiraClient.get_watchers. -/
def getWatchers (st : State) (k : Str) : Except Err JVal × State :=
  match dictGet st.issues k with
  | none => (.error (issueNotFound k), st)
  | some _ =>
    let ids := dictGetD st.watchers k []
    let ws := ids.filterMap (fun uid => dictGet USERS uid)
    (.ok (.obj
      [ (S ("self"), .str (st.baseUrl ++ S ("/rest/api/3/issue/") ++ k ++ S ("/watchers")))
      , (S ("isWatching"), .bool (decide (S ("abc123") ∈ ids)))
      , (S ("watchCount"), .num ws.length)
      , (S ("watchers"), .arr ws) ]), st)

/-- MockJiraClient.add_watcher. -/
def addWatcher (st : State) (k aid : Str) : Except Err Unit × State :=
  match dictGet st.issues k with
  | none => (.error (issueNotFound k), st)
  | some _ =>
    let w0 := if dictContains st.watchers k then st.watchers else dictSet st.watchers k []
    let cur := dictGetD w0 k []
    let w1 := if decide (aid ∈ cur) then w0 else dictSet w0 k (cur ++ [aid])
    (.ok (), { st with watchers := w1 })

/-- The priority_name in priority_id_map membership test of create_issue:
Python hashes the candidate, so an unhashable priority name (a list or a
dict) raises TypeError; a string found in the map selects the mapped id,
and any other hashable value keeps the previously computed id. -/
def mapPriorityId (priorityName priorityId0 : JVal) : Except Err JVal :=
  match priorityName with
  | .str s =>
    .ok (match dictGet priorityIdMap s with
         | some v => v
         | none => priorityId0)
  | .arr _ => .error (.pyTypeError (S ("unhashable type")))
  | .obj _ => .error (.pyTypeError (S ("unhashable type")))
  | _ => .ok priorityId0

/-- MockJiraClient.create_issue. -/
def createIssue (st : State) (fields : List (Str × JVal)) : Except Err JVal × State :=
  let st := { st with nextIssueId := st.nextIssueId + 1 }
  match pyGetD (dictGetD fields (S ("project")) (.obj [])) (S ("key")) (.str (S ("DEMO"))) with
  | .error e => (.error e, st)
  | .ok pk =>
    let issueKey := pyStr pk ++ '-' :: natToDec st.nextIssueId
    let issueId := natToDec (10000 + st.nextIssueId)
    let itype := dictGetD fields (S ("issuetype")) (.obj [])
    let typeName : JVal :=
      match itype with
      | .obj kvs => dictGetD kvs (S ("name")) (.str (S ("Task")))
      | _ => .str (S ("Task"))
    let prio := dictGetD fields (S ("priority")) (.obj [])
    let priorityName : JVal :=
      match prio with
      | .obj kvs => dictGetD kvs (S ("name")) (.str (S ("Medium")))
      | _ => .str (S ("Medium"))
    let priorityId0 : JVal :=
      match prio with
      | .obj kvs => dictGetD kvs (S ("id")) (.str (S ("3")))
      | _ => .str (S ("3"))
    match mapPriorityId priorityName priorityId0 with
    | .error e => (.error e, st)
    | .ok priorityId =>
    let newIssue : Issue :=
      { key := issueKey
      , id := issueId
      , selfUrl := st.baseUrl ++ S ("/rest/api/3/issue/") ++ issueId
      , fields :=
          [ (S ("summary"), dictGetD fields (S ("summary")) (.str (S ("New Issue"))))
          , (S ("description"), dictGetD fields (S ("description")) .null)
          , (S ("issuetype"), .obj [(S ("name"), typeName), (S ("id"), .str (S ("10000")))])
          , (S ("status"), statusToDo)
          , (S ("priority"), .obj [(S ("name"), priorityName), (S ("id"), priorityId)])
          , (S ("assignee"), dictGetD fields (S ("assignee")) .null)
          , (S ("reporter"), dictGetD USERS (S ("abc123")) .null)
          , (S ("project"), .obj
              [ (S ("key"), pk), (S ("name"), .str (S ("Demo Project")))
              , (S ("id"), .str (S ("10000"))) ])
          , (S ("created"), .str (S ("2025-01-08T10:00:00.000+0000")))
          , (S ("updated"), .str (S ("2025-01-08T10:00:00.000+0000")))
          , (S ("labels"), dictGetD fields (S ("labels")) (.arr []))
          , (S ("timetracking"), tt0) ] }
    (.ok (.obj
       [ (S ("key"), .str issueKey), (S ("id"), .str issueId)
       , (S ("self"), .str newIssue.selfUrl) ]),
     { st with issues := dictSet st.issues issueKey newIssue })

/-- A Python list comprehension with a fallible predicate (the first
exception raised aborts the whole comprehension). -/
def filterExcept {α : Type} (p : α → Except Err Bool) : List α → Except Err (List α)
  | [] => .ok []
  | x :: t => do
    let b ← p x
    let r ← filterExcept p t
    pure (if b then x :: r else r)

/-- Integer-keyed association-list lookup (the _sprint_issues dict). -/
def intDictGet {α : Type} : List (Int × α) → Int → Option α
  | [], _ => none
  | (k', v) :: t, k => if k' = k then some v else intDictGet t k

/-- Integer-keyed d.get(k, dflt). -/
def intDictGetD {α : Type} (d : List (Int × α)) (k : Int) (dflt : α) : α :=
  (intDictGet d k).getD dflt

/-- Python i["fields"][k]: KeyError when the field is missing. -/
def fieldsIndex (i : Issue) (k : Str) : Except Err JVal :=
  match dictGet i.fields k with
  | some v => .ok v
  | none => .error (.pyKeyError k)

/-- Python v.lower() yielding the lowered string. -/
def pyLowerStr (v : JVal) : Except Err Str :=
  match v with
  | .str s => .ok (low s)
  | _ => .error (.pyAttributeError (S ("object has no attribute lower")))

/-- The currentUser() assignee check of search_issues. -/
def assigneeAcctPred (i : Issue) : Except Err Bool :=
  if pyTruthy (dictGetD i.fields (S ("assignee")) .null) then do
    let a ← fieldsIndex i (S ("assignee"))
    let v ← pyGet0 a (S ("accountId"))
    pure (jEqStr v (S ("abc123")))
  else pure false

/-- The by-display-name assignee check of search_issues. -/
def assigneeNamePred (who : Str) (i : Issue) : Except Err Bool :=
  if pyTruthy (dictGetD i.fields (S ("assignee")) .null) then do
    let a ← fieldsIndex i (S ("assignee"))
    let v ← pyGetD a (S ("displayName")) (.str [])
    let l ← pyLowerStr v
    pure (decide (l = who))
  else pure false

/-- The i["fields"][field]["name"] == who check of search_issues. -/
def namedEqPred (field who : Str) (i : Issue) : Except Err Bool := do
  let t ← fieldsIndex i field
  let n ← jIndex t (S ("name"))
  pure (jEqStr n who)

/-- The i["fields"][field]["name"] != who check of search_issues. -/
def namedNePred (field who : Str) (i : Issue) : Except Err Bool := do
  let t ← fieldsIndex i field
  let n ← jIndex t (S ("name"))
  pure (!jEqStr n who)

/-- The reporter display-name check of search_issues. -/
def reporterNamePred (who : Str) (i : Issue) : Except Err Bool := do
  let v ← pyGetD (dictGetD i.fields (S ("reporter")) (.obj [])) (S ("displayName")) (.str [])
  let l ← pyLowerStr v
  pure (decide (l = who))

/-- The summary substring check of the text and summary filters. -/
def summaryContainsPred (term : Str) (i : Issue) : Except Err Bool := do
  let l ← pyLowerStr (dictGetD i.fields (S ("summary")) (.str []))
  pure (containsSub l term)

/-- The parent filter check of search_issues. -/
def parentKeyPred (key : Str) (i : Issue) : Except Err Bool := do
  let v ← pyGet0 (dictGetD i.fields (S ("parent")) (.obj [])) (S ("key"))
  pure (jEqStr v key)

/-- MockJiraClient.search_issues before pagination: the chain of
substring- and regex-triggered filters over the stored issues, in source
order (project, assignee, issue type, status, priority, reporter, text,
summary, epic link, parent, sprint). -/
def applyFilters (st : State) (jql : Str) : Except Err (List Issue) := do
  let issues := st.issues.map Prod.snd
  let jqlUpper :=
    replaceSub (replaceSub (up jql) (S ("TYPE =")) (S ("ISSUETYPE ="))) (S ("TYPE="))
      (S ("ISSUETYPE="))
  let issues :=
    if containsSub jqlUpper (S ("PROJECT = DEMOSD")) ||
        containsSub jqlUpper (S ("PROJECT=DEMOSD")) then
      issues.filter (fun i => startsWith i.key (S ("DEMOSD-")))
    else if containsSub jqlUpper (S ("PROJECT = DEMO")) ||
        containsSub jqlUpper (S ("PROJECT=DEMO")) then
      issues.filter (fun i => startsWith i.key (S ("DEMO-")) && !startsWith i.key (S ("DEMOSD-")))
    else issues
  let issues ←
    if containsSub jqlUpper (S ("ASSIGNEE")) then
      let jqlLower := low jql
      if containsSub jqlLower (S ("currentuser()")) then
        filterExcept assigneeAcctPred issues
      else if containsSub jqlLower (S ("jane")) then
        filterExcept (assigneeNamePred (S ("jane manager"))) issues
      else if containsSub jqlLower (S ("jason")) then
        filterExcept (assigneeNamePred (S ("jason krueger"))) issues
      else pure issues
    else pure issues
  let issues ←
    if containsSub jqlUpper (S ("ISSUETYPE = BUG")) ||
        containsSub jqlUpper (S ("ISSUETYPE=BUG")) then
      filterExcept (namedEqPred (S ("issuetype")) (S ("Bug"))) issues
    else if containsSub jqlUpper (S ("ISSUETYPE = STORY")) ||
        containsSub jqlUpper (S ("ISSUETYPE=STORY")) then
      filterExcept (namedEqPred (S ("issuetype")) (S ("Story"))) issues
    else if containsSub jqlUpper (S ("ISSUETYPE = EPIC")) ||
        containsSub jqlUpper (S ("ISSUETYPE=EPIC")) then
      filterExcept (namedEqPred (S ("issuetype")) (S ("Epic"))) issues
    else if containsSub jqlUpper (S ("ISSUETYPE = TASK")) ||
        containsSub jqlUpper (S ("ISSUETYPE=TASK")) then
      filterExcept (namedEqPred (S ("issuetype")) (S ("Task"))) issues
    else pure issues
  let issues ←
    if containsSub jqlUpper (S ("STATUS != DONE")) ||
        containsSub jqlUpper (S ("STATUS!=DONE")) ||
        containsSub jqlUpper (S ("STATUS <> DONE")) then
      filterExcept (namedNePred (S ("status")) (S ("Done"))) issues
    else if containsSub jqlUpper (S ("STATUS = \"IN PROGRESS\"")) ||
        containsSub jqlUpper (S ("STATUS=\"IN PROGRESS\"")) then
      filterExcept (namedEqPred (S ("status")) (S ("In Progress"))) issues
    else if containsSub jqlUpper (S ("STATUS = \"TO DO\"")) ||
        containsSub jqlUpper (S ("STATUS=\"TO DO\"")) then
      filterExcept (namedEqPred (S ("status")) (S ("To Do"))) issues
    else if containsSub jqlUpper (S ("STATUS = OPEN")) ||
        containsSub jqlUpper (S ("STATUS=OPEN")) then
      filterExcept (namedNePred (S ("status")) (S ("Done"))) issues
    else pure issues
  let issues ←
    if containsSub jqlUpper (S ("PRIORITY = HIGH")) ||
        containsSub jqlUpper (S ("PRIORITY=HIGH")) then
      filterExcept (namedEqPred (S ("priority")) (S ("High"))) issues
    else if containsSub jqlUpper (S ("PRIORITY = MEDIUM")) ||
        containsSub jqlUpper (S ("PRIORITY=MEDIUM")) then
      filterExcept (namedEqPred (S ("priority")) (S ("Medium"))) issues
    else if containsSub jqlUpper (S ("PRIORITY = LOW")) ||
        containsSub jqlUpper (S ("PRIORITY=LOW")) then
      filterExcept (namedEqPred (S ("priority")) (S ("Low"))) issues
    else pure issues
  let issues ←
    if containsSub jqlUpper (S ("REPORTER")) then
      let jqlLower := low jql
      if containsSub jqlLower (S ("jane")) then
        filterExcept (reporterNamePred (S ("jane manager"))) issues
      else if containsSub jqlLower (S ("jason")) then
        filterExcept (reporterNamePred (S ("jason krueger"))) issues
      else pure issues
    else pure issues
  let issues ←
    match findKwThen (S ("TEXT")) matchTildeAt jql with
    | some cap => filterExcept (summaryContainsPred (low cap)) issues
    | none => pure issues
  let issues ←
    match findKwThen (S ("SUMMARY")) matchTildeAt jql with
    | some cap => filterExcept (summaryContainsPred (low cap)) issues
    | none => pure issues
  let issues :=
    match findKwThen (S ("\"EPIC LINK\"")) matchEqKeyAt jql with
    | some key =>
      issues.filter (fun i => jEqStr (dictGetD i.fields (S ("customfield_10014")) .null) key)
    | none => issues
  let issues ←
    match findKwThen (S ("PARENT")) matchEqKeyAt jql with
    | some key => filterExcept (parentKeyPred key) issues
    | none => pure issues
  let issues :=
    if containsSub jqlUpper (S ("SPRINT")) then
      if containsSub jqlUpper (S ("SPRINT IN OPENSPRINTS()")) ||
          containsSub jqlUpper (S ("SPRINT IN (ACTIVE)")) then
        let activeKeys := st.sprints.foldl
          (fun acc sp =>
            if sp.state = S ("active") then acc ++ intDictGetD st.sprintIssues sp.id []
            else acc) []
        issues.filter (fun i => decide (i.key ∈ activeKeys))
      else issues
    else issues
  pure issues

/-- MockJiraClient.search_issues: filter, then paginate. -/
def searchIssuesE (st : State) (jql : Str) (maxResults : Int) (startAt : Option Int) :
    Except Err SearchResult := do
  let issues ← applyFilters st jql
  let offset : Int := match startAt with | some v => v | none => 0
  let paginated := pySlice issues offset (offset + maxResults)
  let isLast := decide (offset + (paginated.length : Int) ≥ (issues.length : Int))
  pure { startAt := offset
       , maxResults := maxResults
       , total := issues.length
       , issues := paginated
       , isLast := isLast
       , nextPageToken :=
           if isLast then none else some (S ("token_") ++ intToDec (offset + maxResults)) }

/-- search_issues as a state-passing call (the method reads but never
writes the store). -/
def searchIssues (st : State) (jql : Str) (maxResults : Int) (startAt : Option Int) :
    Except Err SearchResult × State :=
  (searchIssuesE st jql maxResults startAt, st)

/-- MockJiraClient.get_queue (a classmethod-style lookup of the static
QUEUES table). -/
def getQueue (sdId qId : Int) : Except Err Queue :=
  let queues := dictGetD QUEUES (intToDec sdId) []
  match queues.find? (fun q => decide (q.id = intToDec qId)) with
  | some q => .ok q
  | none =>
    .error (.notFound (S ("Queue ") ++ intToDec qId ++
      S (" not found in service desk ") ++ intToDec sdId))

/-- MockJiraClient.get_queue_issues.  The assigned-to-me branch evaluates
i["fields"].get("assignee", \x7b\x7d).get("accountId"), which raises
AttributeError whenever the stored assignee is None. -/
def getQueueIssues (st : State) (sdId qId start limit : Int) :
    Except Err QueuePage × State :=
  let core : Except Err QueuePage := do
    let demosd := (st.issues.map Prod.snd).filter
      (fun i => startsWith i.key (S ("DEMOSD-")))
    let q ← getQueue sdId qId
    let qname := low q.name
    let demosd ←
      if containsSub qname (S ("unassigned")) then
        pure (demosd.filter (fun i =>
          match dictGetD i.fields (S ("assignee")) .null with
          | .null => true
          | _ => false))
      else if containsSub qname (S ("assigned to me")) then
        filterExcept (fun i => do
          let a ← pyGet0 (dictGetD i.fields (S ("assignee")) (.obj [])) (S ("accountId"))
          pure (jEqStr a (S ("abc123")))) demosd
      else pure demosd
    let paginated := pySlice demosd start (start + limit)
    pure { size := paginated.length
         , start := start
         , limit := limit
         , isLastPage := decide (start + limit ≥ (demosd.length : Int))
         , values := paginated }
  (core, st)

/-- One method call with its arguments (the modelled method surface). -/
inductive Call : Type where
  | getIssue (k : Str)
  | searchIssues (jql : Str) (maxResults : Int) (startAt : Option Int)
  | createIssue (fields : List (Str × JVal))
  | updateIssue (k : Str) (fields : List (Str × JVal))
  | deleteIssue (k : Str)
  | assignIssue (k : Str) (accountId : Option Str)
  | transitionIssue (k tid : Str)
  | addComment (k : Str) (body : JVal) (visibility : Option JVal)
  | getComments (k : Str) (startAt maxResults : Int)
  | deleteComment (k cid : Str)
  | addWorklog (k : Str) (timeSpent : Str) (started : Option Str) (comment : Option JVal)
  | deleteWorklog (k wid : Str)
  | getWatchers (k : Str)
  | addWatcher (k aid : Str)
  | getQueueIssues (sdId qId start limit : Int)

/-- The value a call returns (one constructor per result shape). -/
inductive OutVal : Type where
  | unit
  | json (v : JVal)
  | issue (i : Issue)
  | comment (c : Comment)
  | worklog (w : Worklog)
  | commentsPage (p : CommentsPage)
  | searchPage (r : SearchResult)
  | queuePage (p : QueuePage)

/-- Dispatch one call against the client state. -/
def applyCall (st : State) : Call → Except Err OutVal × State
  | .getIssue k => let (r, st') := getIssue st k; (r.map .issue, st')
  | .searchIssues jql mr sa =>
    let (r, st') := searchIssues st jql mr sa; (r.map .searchPage, st')
  | .createIssue fields => let (r, st') := createIssue st fields; (r.map .json, st')
  | .updateIssue k fields => let (r, st') := updateIssue st k fields; (r.map .json, st')
  | .deleteIssue k => let (r, st') := deleteIssue st k; (r.map (fun _ => .unit), st')
  | .assignIssue k aid => let (r, st') := assignIssue st k aid; (r.map (fun _ => .unit), st')
  | .transitionIssue k tid =>
    let (r, st') := transitionIssue st k tid; (r.map (fun _ => .unit), st')
  | .addComment k body vis => let (r, st') := addComment st k body vis; (r.map .comment, st')
  | .getComments k sa mr =>
    let (r, st') := getComments st k sa mr; (r.map .commentsPage, st')
  | .deleteComment k cid =>
    let (r, st') := deleteComment st k cid; (r.map (fun _ => .unit), st')
  | .addWorklog k ts started comment =>
    let (r, st') := addWorklog st k ts started comment; (r.map .worklog, st')
  | .deleteWorklog k wid =>
    let (r, st') := deleteWorklog st k wid; (r.map (fun _ => .unit), st')
  | .getWatchers k => let (r, st') := getWatchers st k; (r.map .json, st')
  | .addWatcher k aid => let (r, st') := addWatcher st k aid; (r.map (fun _ => .unit), st')
  | .getQueueIssues sd q s l =>
    let (r, st') := getQueueIssues st sd q s l; (r.map .queuePage, st')

/-- Construct a client from its arguments and run a call sequence,
collecting every result (or raised error) and the final state.  The client
consults no clock, randomness or environment: its whole behaviour is this
function of the constructor arguments and the calls. -/
def runCalls (a : Args) (calls : List Call) : List (Except Err OutVal) × State :=
  calls.foldl
    (fun acc c =>
      let (r, st') := applyCall acc.2 c
      (acc.1 ++ [r], st'))
    ([], initState a)

/-- The status object issue K currently carries, if any. -/
def statusOf (st : State) (k : Str) : Option JVal :=
  (dictGet st.issues k).bind (fun i => dictGet i.fields (S ("status")))

/-- The comment list of issue K (empty when no comment was ever added). -/
def commentsOf (st : State) (k : Str) : List Comment :=
  dictGetD st.comments k []

/-- The worklog list of issue K. -/
def worklogsOf (st : State) (k : Str) : List Worklog :=
  dictGetD st.worklogs k []

/-- The numeric suffix of an issue key of the shape prefix-digits. -/
def keyNum (k : Str) : Option Nat :=
  let ds := k.reverse.takeWhile Char.isDigit
  let rest := k.reverse.dropWhile Char.isDigit
  if ds ≠ [] ∧ rest.head? = some '-' then some (decToNat ds.reverse) else none

/-- Every stored key's numeric suffix is bounded by the issue-id counter.
This holds of the seeded store (suffixes 1..91 against a counter of 100)
and is preserved by the client because create_issue and create_request
stamp each new key with the freshly incremented counter. -/
def keyBound (st : State) : Bool :=
  st.issues.all (fun p =>
    match keyNum p.1 with
    | some n => decide (n ≤ st.nextIssueId)
    | none => true)

/-- The "project" entry of a create_issue fields dict, when present, is a
dictionary (otherwise the source's .get("key", "DEMO") chain raises
AttributeError). -/
def projOk (fields : List (Str × JVal)) : Bool :=
  match dictGet fields (S ("project")) with
  | none => true
  | some (.obj _) => true
  | some _ => false

/-- The priority name create_issue computes from a fields dict is hashable
(not a list or a dict): otherwise the source's membership test
priority_name in priority_id_map raises TypeError. -/
def prioOk (fields : List (Str × JVal)) : Bool :=
  match dictGetD fields (S ("priority")) (.obj []) with
  | .obj kvs =>
    match dictGetD kvs (S ("name")) (.str (S ("Medium"))) with
    | .arr _ => false
    | .obj _ => false
    | _ => true
  | _ => true

/-- The query refuting the frozen reading of the project-only filter: its
TYPE clause is normalised to ISSUETYPE by search_issues although "type" is
absent from the claim's keyword list. -/
def qC3 : Str := S ("project = DEMO AND type = Bug")

/-- A one-issue store used to instantiate the universally quantified
theorems at a concrete state. -/
def wIssue : Issue :=
  { key := S ("DEMO-1")
  , id := S ("10001")
  , selfUrl := S ("https://mock.atlassian.net/rest/api/3/issue/10001")
  , fields :=
      [ (S ("summary"), .str (S ("First")))
      , (S ("issuetype"), .obj [(S ("name"), .str (S ("Bug"))), (S ("id"), .str (S ("10002")))])
      , (S ("status"), statusToDo) ] }

/-- A second issue for the search counterexamples. -/
def wIssue2 : Issue :=
  { key := S ("DEMO-2")
  , id := S ("10002")
  , selfUrl := S ("https://mock.atlassian.net/rest/api/3/issue/10002")
  , fields :=
      [ (S ("summary"), .str (S ("Second")))
      , (S ("issuetype"), .obj [(S ("name"), .str (S ("Story"))), (S ("id"), .str (S ("10001")))])
      , (S ("status"), statusToDo) ] }

/-- A small concrete client state with two issues, one comment list and one
worklog list. -/
def wState : State :=
  { baseUrl := S ("https://mock.atlassian.net")
  , email := S ("test@example.com")
  , apiToken := S ("mock-token")
  , timeout := 30
  , maxRetries := 3
  , retryBackoff := 2
  , nextIssueId := 100
  , issues := [(S ("DEMO-1"), wIssue), (S ("DEMO-2"), wIssue2)]
  , comments :=
      [(S ("DEMO-1"),
        [{ id := S ("1"), body := .str (S ("hello"))
         , author := dictGetD USERS (S ("abc123")) .null
         , created := S ("2025-01-08T10:00:00.000+0000")
         , updated := S ("2025-01-08T10:00:00.000+0000") }])]
  , worklogs :=
      [(S ("DEMO-1"),
        [{ id := S ("1"), timeSpent := S ("1h"), timeSpentSeconds := 3600
         , started := S ("2025-01-08T10:00:00.000+0000"), comment := none
         , author := dictGetD USERS (S ("abc123")) .null
         , created := S ("2025-01-08T10:00:00.000+0000")
         , updated := S ("2025-01-08T10:00:00.000+0000") }])]
  , sprints := []
  , sprintIssues := []
  , watchers := []
  , issueLinks := []
  , nextLinkId := 1000 }

/-! Association-list facts. -/

theorem dictGet_dictSet_self {α : Type} (d : List (Str × α)) (k : Str) (v : α) :
    dictGet (dictSet d k v) k = some v := by
  induction d with
  | nil => simp [dictGet, dictSet]
  | cons p t ih =>
    obtain ⟨k', v'⟩ := p
    by_cases h : k' = k
    · subst h
      simp [dictGet, dictSet]
    · simp [dictGet, dictSet, h, ih]

theorem dictGet_dictSet_ne {α : Type} (d : List (Str × α)) (k k' : Str) (v : α)
    (h : k ≠ k') : dictGet (dictSet d k v) k' = dictGet d k' := by
  induction d with
  | nil => simp [dictGet, dictSet, h]
  | cons p t ih =>
    obtain ⟨k0, v0⟩ := p
    by_cases h0 : k0 = k
    · subst h0
      simp [dictGet, dictSet, h]
    · simp only [dictSet, if_neg h0, dictGet]
      by_cases h1 : k0 = k'
      · simp [h1]
      · simp [h1, ih]

theorem dictGet_dictRemove_self {α : Type} (d : List (Str × α)) (k : Str) :
    dictGet (dictRemove d k) k = none := by
  induction d with
  | nil => simp [dictGet, dictRemove]
  | cons p t ih =>
    obtain ⟨k0, v0⟩ := p
    by_cases h0 : k0 = k
    · subst h0
      simpa [dictRemove, List.filter] using ih
    · simpa [dictRemove, List.filter, h0, dictGet] using ih

theorem dictGet_mem {α : Type} {d : List (Str × α)} {k : Str} {v : α}
    (h : dictGet d k = some v) : (k, v) ∈ d := by
  induction d with
  | nil => simp [dictGet] at h
  | cons p t ih =>
    obtain ⟨k0, v0⟩ := p
    have h' : (if k0 = k then some v0 else dictGet t k) = some v := h
    split at h'
    · rename_i heq
      injection h' with hv
      subst heq
      subst hv
      exact List.mem_cons_self ..
    · exact List.mem_cons_of_mem _ (ih h')

theorem dictGetD_dictSet_self {α : Type} (d : List (Str × α)) (k : Str) (v dflt : α) :
    dictGetD (dictSet d k v) k dflt = v := by
  simp [dictGetD, dictGet_dictSet_self]

/-- C1: every issue-keyed operation called with a key absent from the store
raises NotFoundError carrying that key and returns the state unchanged:
get_issue, update_issue, delete_issue, assign_issue, transition_issue,
add_comment, get_comments, add_worklog, get_watchers, add_watcher. -/
theorem claim_C1 (st : State) (K : Str) (h : dictContains st.issues K = false) :
    getIssue st K = (.error (issueNotFound K), st) ∧
    (∀ F, updateIssue st K F = (.error (issueNotFound K), st)) ∧
    deleteIssue st K = (.error (issueNotFound K), st) ∧
    (∀ aid, assignIssue st K aid = (.error (issueNotFound K), st)) ∧
    (∀ tid, transitionIssue st K tid = (.error (issueNotFound K), st)) ∧
    (∀ body vis, addComment st K body vis = (.error (issueNotFound K), st)) ∧
    (∀ sa mr, getComments st K sa mr = (.error (issueNotFound K), st)) ∧
    (∀ ts started comment, addWorklog st K ts started comment =
      (.error (issueNotFound K), st)) ∧
    getWatchers st K = (.error (issueNotFound K), st) ∧
    (∀ aid, addWatcher st K aid = (.error (issueNotFound K), st)) := by
  have hn : dictGet st.issues K = none := by
    cases hg : dictGet st.issues K with
    | none => rfl
    | some i => simp [dictContains, hg] at h
  refine ⟨?_, ?_, ?_, ?_, ?_, ?_, ?_, ?_, ?_, ?_⟩ <;>
    intros <;>
    simp [getIssue, updateIssue, deleteIssue, assignIssue, transitionIssue,
      addComment, getComments, addWorklog, getWatchers, addWatcher, hn]

/-- C1 witness: the operations at the concrete missing key NOPE of the
two-issue state. -/
theorem claim_C1_witness :
    dictContains wState.issues (S ("NOPE")) = false ∧
    getIssue wState (S ("NOPE")) = (.error (issueNotFound (S ("NOPE"))), wState) := by
  refine ⟨by decide, ?_⟩
  exact (claim_C1 wState (S ("NOPE")) (by decide)).1

/-- C5: the claim that every raised exception is one of the four
error_handler classes fails in the code: get_queue_issues on the seeded
store, for the Assigned-to-me queue (service desk 1, queue 2), raises
AttributeError, because each seeded DEMOSD issue stores assignee None and
the filter calls .get("accountId") on it. -/
theorem claim_C5_queue_attribute_error :
    (getQueueIssues (initState defaultArgs) 1 2 0 50).1 =
      .error (.pyAttributeError (S ("object has no attribute get"))) ∧
    (getQueueIssues (initState defaultArgs) 1 2 0 50).2 = initState defaultArgs := by
  exact ⟨rfl, rfl⟩

/-- C7: the client is deterministic: two clients built from the same
constructor arguments, given the same call sequence, return the same
results and errors and end in the same state.  runCalls is a pure function
of the arguments and the calls; the hard-coded timestamps of the source are
part of the definitions, and nothing consults a clock, randomness or the
environment. -/
theorem claim_C7 (a1 a2 : Args) (cs1 cs2 : List Call)
    (ha : a1 = a2) (hc : cs1 = cs2) :
    (runCalls a1 cs1).1 = (runCalls a2 cs2).1 ∧
    (runCalls a1 cs1).2 = (runCalls a2 cs2).2 := by
  subst ha
  subst hc
  exact ⟨rfl, rfl⟩

/-- C7 witness: two identically built clients agree on a concrete call
sequence. -/
theorem claim_C7_witness :
    (runCalls defaultArgs [Call.getIssue (S ("DEMO-84")), Call.deleteIssue (S ("DEMO-84"))]).1 =
    (runCalls defaultArgs [Call.getIssue (S ("DEMO-84")), Call.deleteIssue (S ("DEMO-84"))]).1 := by
  exact (claim_C7 defaultArgs defaultArgs _ _ rfl rfl).1

/-- C2: on a stored issue, transition_issue never raises; transition ids
11, 21 and 31 set the status to the "to" object of the matching TRANSITIONS
entry, and any other id leaves the client state untouched. -/
theorem claim_C2 (st : State) (K tid : Str) (i : Issue)
    (hi : dictGet st.issues K = some i) :
    (transitionIssue st K tid).1 = .ok () ∧
    (tid = S ("11") → statusOf (transitionIssue st K tid).2 K =
      some (.obj [(S ("name"), .str (S ("To Do"))), (S ("id"), .str (S ("10000")))])) ∧
    (tid = S ("21") → statusOf (transitionIssue st K tid).2 K =
      some (.obj [(S ("name"), .str (S ("In Progress"))), (S ("id"), .str (S ("10001")))])) ∧
    (tid = S ("31") → statusOf (transitionIssue st K tid).2 K =
      some (.obj [(S ("name"), .str (S ("Done"))), (S ("id"), .str (S ("10002")))])) ∧
    (tid ≠ S ("11") → tid ≠ S ("21") → tid ≠ S ("31") →
      (transitionIssue st K tid).2 = st) := by
  refine ⟨?_, ?_, ?_, ?_, ?_⟩
  · simp only [transitionIssue, hi]
    cases TRANSITIONS.find? (fun t => decide (t.id = tid)) <;> rfl
  · rintro rfl
    simp [transitionIssue, hi, TRANSITIONS, List.find?, statusOf,
      dictGet_dictSet_self, S]
  · rintro rfl
    simp [transitionIssue, hi, TRANSITIONS, List.find?, statusOf,
      dictGet_dictSet_self, S]
  · rintro rfl
    simp [transitionIssue, hi, TRANSITIONS, List.find?, statusOf,
      dictGet_dictSet_self, S]
  · intro h11 h21 h31
    have hfind : TRANSITIONS.find? (fun t => decide (t.id = tid)) = none := by
      have d1 : decide (S ("11") = tid) = false := decide_eq_false (fun h => h11 h.symm)
      have d2 : decide (S ("21") = tid) = false := decide_eq_false (fun h => h21 h.symm)
      have d3 : decide (S ("31") = tid) = false := decide_eq_false (fun h => h31 h.symm)
      simp only [TRANSITIONS, List.find?]
      rw [d1, d2, d3]
    simp [transitionIssue, hi, hfind]

/-- C2 witness: transitioning the stored issue DEMO-1 with id 21 sets its
status to In Progress. -/
theorem claim_C2_witness :
    statusOf (transitionIssue wState (S ("DEMO-1")) (S ("21"))).2 (S ("DEMO-1")) =
      some (.obj [(S ("name"), .str (S ("In Progress"))), (S ("id"), .str (S ("10001")))]) := by
  exact (claim_C2 wState (S ("DEMO-1")) (S ("21")) wIssue rfl).2.2.1 rfl

/-- C10: on a stored issue, delete_comment never raises and an unknown
comment id leaves the comment list as it was, while delete_worklog raises
NotFoundError whenever no stored worklog of the issue carries the given
id. -/
theorem claim_C10 (st : State) (K : Str) (i : Issue)
    (hi : dictGet st.issues K = some i) :
    (∀ cid, (deleteComment st K cid).1 = .ok ()) ∧
    (∀ cid, (∀ c ∈ commentsOf st K, c.id ≠ cid) →
      commentsOf (deleteComment st K cid).2 K = commentsOf st K) ∧
    (∀ wid, (∀ w ∈ worklogsOf st K, w.id ≠ wid) →
      (deleteWorklog st K wid).1 =
        .error (.notFound (S ("Worklog ") ++ wid ++ S (" not found")))) := by
  refine ⟨?_, ?_, ?_⟩
  · intro cid
    simp [deleteComment, hi]
  · intro cid hc
    have hfix : (commentsOf st K).filter (fun c => c.id ≠ cid) = commentsOf st K := by
      refine List.filter_eq_self.mpr ?_
      intro c hcmem
      simpa using hc c hcmem
    simp only [deleteComment, hi, commentsOf]
    rw [show dictGetD st.comments K [] = commentsOf st K from rfl, hfix]
    simp [dictGetD, dictGet_dictSet_self]
  · intro wid hw
    have hfix : (worklogsOf st K).filter (fun w => w.id ≠ wid) = worklogsOf st K := by
      refine List.filter_eq_self.mpr ?_
      intro w hwmem
      simpa using hw w hwmem
    simp only [deleteWorklog, hi]
    rw [show dictGetD st.worklogs K [] = worklogsOf st K from rfl, hfix]
    simp

/-- C10 witness: at the two-issue state, deleting an unknown comment id of
DEMO-1 succeeds and keeps its single comment, and deleting an unknown
worklog id raises NotFoundError. -/
theorem claim_C10_witness :
    (deleteComment wState (S ("DEMO-1")) (S ("9"))).1 = .ok () ∧
    commentsOf (deleteComment wState (S ("DEMO-1")) (S ("9"))).2 (S ("DEMO-1")) =
      commentsOf wState (S ("DEMO-1")) ∧
    (deleteWorklog wState (S ("DEMO-1")) (S ("9"))).1 =
      .error (.notFound (S ("Worklog ") ++ S ("9") ++ S (" not found"))) := by
  obtain ⟨h1, h2, h3⟩ := claim_C10 wState (S ("DEMO-1")) wIssue rfl
  exact ⟨h1 _, h2 _ (by decide), h3 _ (by decide)⟩

theorem dictGet_eq_none {α : Type} {d : List (Str × α)} {k : Str}
    (h : k ∉ d.map Prod.fst) : dictGet d k = none := by
  induction d with
  | nil => rfl
  | cons p t ih =>
    obtain ⟨k0, v0⟩ := p
    simp only [List.map_cons, List.mem_cons, not_or] at h
    have : dictGet ((k0, v0) :: t) k = if k0 = k then some v0 else dictGet t k := rfl
    rw [this, if_neg (fun he => h.1 he.symm)]
    exact ih h.2

theorem foldl_dictSet_not_mem {α : Type} (F : List (Str × α)) (fs : List (Str × α))
    (k : Str) :
    dictGet F k = none →
    dictGet (F.foldl (fun fs kv => dictSet fs kv.1 kv.2) fs) k = dictGet fs k := by
  induction F generalizing fs with
  | nil => intro _; rfl
  | cons p t ih =>
    intro h
    obtain ⟨k0, v0⟩ := p
    have h' : (if k0 = k then some v0 else dictGet t k) = none := h
    split at h'
    · exact absurd h' (by simp)
    · rename_i hne
      rw [List.foldl_cons]
      rw [ih (dictSet fs k0 v0) h']
      exact dictGet_dictSet_ne fs k0 k v0 hne

theorem foldl_dictSet_mem {α : Type} (F : List (Str × α)) (fs : List (Str × α))
    (k : Str) (v : α) :
    (F.map Prod.fst).Nodup → dictGet F k = some v →
    dictGet (F.foldl (fun fs kv => dictSet fs kv.1 kv.2) fs) k = some v := by
  induction F generalizing fs with
  | nil => intro _ h; exact absurd h (by simp [dictGet])
  | cons p t ih =>
    intro hnd h
    obtain ⟨k0, v0⟩ := p
    simp only [List.map_cons, List.nodup_cons] at hnd
    have h' : (if k0 = k then some v0 else dictGet t k) = some v := h
    rw [List.foldl_cons]
    split at h'
    · rename_i heq
      injection h' with hv
      subst heq
      subst hv
      have hnone : dictGet t k0 = none := dictGet_eq_none hnd.1
      rw [foldl_dictSet_not_mem t (dictSet fs k0 v0) k0 hnone]
      exact dictGet_dictSet_self fs k0 v0
    · exact ih (dictSet fs k0 v0) hnd.2 h'

/-- C6: on a stored issue, update_issue with a fields dict F returns the
empty dict, sets exactly the keys of F in the issue's fields to the given
values, and leaves every other field key, every other issue and the
comment, worklog, watcher, sprint and issue-link stores unchanged. -/
theorem claim_C6 (st : State) (K : Str) (F : List (Str × JVal)) (i : Issue)
    (hi : dictGet st.issues K = some i) (hnd : (F.map Prod.fst).Nodup) :
    (updateIssue st K F).1 = .ok (.obj []) ∧
    (∃ i', dictGet (updateIssue st K F).2.issues K = some i' ∧
      (∀ k v, dictGet F k = some v → dictGet i'.fields k = some v) ∧
      (∀ k, dictGet F k = none → dictGet i'.fields k = dictGet i.fields k)) ∧
    (∀ K', K' ≠ K → dictGet (updateIssue st K F).2.issues K' = dictGet st.issues K') ∧
    (updateIssue st K F).2.comments = st.comments ∧
    (updateIssue st K F).2.worklogs = st.worklogs ∧
    (updateIssue st K F).2.watchers = st.watchers ∧
    (updateIssue st K F).2.sprints = st.sprints ∧
    (updateIssue st K F).2.sprintIssues = st.sprintIssues ∧
    (updateIssue st K F).2.issueLinks = st.issueLinks := by
  by_cases hF : F.isEmpty
  · have hFnil : F = [] := List.isEmpty_iff.mp hF
    subst hFnil
    have heq : updateIssue st K [] = (.ok (.obj []), st) := by
      simp [updateIssue, hi]
    rw [heq]
    exact ⟨rfl, ⟨i, hi, fun k v hkv => absurd hkv (by simp [dictGet]), fun k _ => rfl⟩,
      fun K' _ => rfl, rfl, rfl, rfl, rfl, rfl, rfl⟩
  · have heq : updateIssue st K F =
        (.ok (.obj []),
         { st with issues := dictSet st.issues K ({ i with fields := F.foldl (fun fs kv => dictSet fs kv.1 kv.2) i.fields }) }) := by
      simp [updateIssue, hi, hF]
    rw [heq]
    exact ⟨rfl,
      ⟨{ i with fields := F.foldl (fun fs kv => dictSet fs kv.1 kv.2) i.fields },
        dictGet_dictSet_self ..,
        fun k v hkv => foldl_dictSet_mem F i.fields k v hnd hkv,
        fun k hk => foldl_dictSet_not_mem F i.fields k hk⟩,
      fun K' hne => dictGet_dictSet_ne st.issues K K' _ (fun he => hne he.symm),
      rfl, rfl, rfl, rfl, rfl, rfl⟩

/-- C6 witness: updating DEMO-1's summary returns the empty dict and the
stored issue carries the new summary. -/
theorem claim_C6_witness :
    (updateIssue wState (S ("DEMO-1")) [(S ("summary"), .str (S ("Changed")))]).1 =
      .ok (.obj []) ∧
    ∃ i', dictGet (updateIssue wState (S ("DEMO-1"))
        [(S ("summary"), .str (S ("Changed")))]).2.issues (S ("DEMO-1")) = some i' ∧
      dictGet i'.fields (S ("summary")) = some (.str (S ("Changed"))) := by
  obtain ⟨h1, ⟨i', hget, hset, _⟩, _⟩ :=
    claim_C6 wState (S ("DEMO-1")) [(S ("summary"), .str (S ("Changed")))] wIssue rfl
      (by decide)
  exact ⟨h1, i', hget, hset _ _ rfl⟩

/-! Python slice facts. -/

theorem length_pySlice {α : Type} (xs : List α) (a b : Int) :
    (pySlice xs a b).length =
      min (normIdx xs.length b) xs.length - normIdx xs.length a := by
  simp [pySlice, List.length_drop, List.length_take]

theorem normIdx_le (n : Nat) (i : Int) : normIdx n i ≤ n := by
  unfold normIdx
  split <;> omega

theorem normIdx_add_le (n : Nat) (a m : Int) (hm : 0 ≤ m) :
    normIdx n (a + m) ≤ normIdx n a + m.toNat := by
  unfold normIdx
  split <;> split <;> omega

theorem pySlice_length_le {α : Type} (xs : List α) (a m : Int) (hm : 0 ≤ m) :
    ((pySlice xs a (a + m)).length : Int) ≤ m := by
  have hb := normIdx_add_le xs.length a m hm
  have hle := normIdx_le xs.length (a + m)
  rw [length_pySlice]
  omega

theorem take_min_length {α : Type} (xs : List α) (k : Nat) :
    xs.take (min k xs.length) = xs.take k := by
  rcases le_total k xs.length with h | h
  · rw [min_eq_left h]
  · rw [min_eq_right h, List.take_length, List.take_of_length_le h]

theorem pySlice_zero {α : Type} (xs : List α) (k : Int) (hk : 0 ≤ k) :
    pySlice xs 0 k = xs.take k.toNat := by
  unfold pySlice normIdx
  rw [if_neg (by omega), if_neg (by omega)]
  rw [show (0 : Int).toNat = 0 from rfl, min_comm, take_min_length]
  simp

/-- C8: the pagination contract of search_issues: total counts the issues
matching the filters, the issues list is the Python slice of the matching
list from offset (start_at, or 0 when it is None) to offset + max_results,
startAt echoes the offset, isLast holds exactly when offset plus the number
returned reaches the total, and nextPageToken is None exactly when isLast.
The returned list is no longer than max_results whenever max_results is
non-negative (the claim asserted this for every max_results, which fails
for negative values under Python slice semantics). -/
theorem searchIssuesE_ok (st : State) (q : Str) (mr : Int) (sa : Option Int)
    (l : List Issue) (hl : applyFilters st q = .ok l) :
    searchIssuesE st q mr sa = .ok
      { startAt := sa.getD 0
      , maxResults := mr
      , total := l.length
      , issues := pySlice l (sa.getD 0) (sa.getD 0 + mr)
      , isLast := decide (sa.getD 0 +
          ((pySlice l (sa.getD 0) (sa.getD 0 + mr)).length : Int) ≥ (l.length : Int))
      , nextPageToken :=
          if decide (sa.getD 0 +
              ((pySlice l (sa.getD 0) (sa.getD 0 + mr)).length : Int) ≥ (l.length : Int)) then
            none
          else some (S ("token_") ++ intToDec (sa.getD 0 + mr)) } := by
  simp only [searchIssuesE, hl]
  cases sa <;> rfl

theorem claim_C8 (st : State) (q : Str) (mr : Int) (sa : Option Int)
    (l : List Issue) (hl : applyFilters st q = .ok l) :
    ∃ r, searchIssuesE st q mr sa = .ok r ∧
      r.total = l.length ∧
      r.issues = pySlice l (sa.getD 0) (sa.getD 0 + mr) ∧
      (0 ≤ mr → (r.issues.length : Int) ≤ mr) ∧
      r.startAt = sa.getD 0 ∧
      (r.isLast = true ↔ sa.getD 0 + (r.issues.length : Int) ≥ (r.total : Int)) ∧
      (r.nextPageToken = none ↔ r.isLast = true) := by
  have hres := searchIssuesE_ok st q mr sa l hl
  refine ⟨_, hres, rfl, rfl, ?_, rfl, ?_, ?_⟩
  · intro hm
    exact pySlice_length_le l (sa.getD 0) mr hm
  · simp
  · by_cases hLast : decide (sa.getD 0 +
        ((pySlice l (sa.getD 0) (sa.getD 0 + mr)).length : Int) ≥ (l.length : Int)) = true
    · simp [hLast]
    · simp only [Bool.not_eq_true] at hLast
      simp [hLast]

/-- C8 counterexample: with max_results = -1 on a two-issue store the
returned list has one element, so its length is not at most max_results;
the slice semantics the claim also asserts contradict the bound for
negative max_results. -/
theorem claim_C8_counterexample :
    (searchIssuesE wState [] (-1) none).map
      (fun r => decide ((r.issues.length : Int) ≤ r.maxResults)) = .ok false := by
  rfl

/-- C8 witness: the default pagination of an unfiltered search over the
two-issue store. -/
theorem claim_C8_witness :
    ∃ r, searchIssuesE wState [] 50 none = .ok r ∧ r.total = 2 ∧
      (r.issues.length : Int) ≤ 50 := by
  obtain ⟨r, hr, htot, _, hlen, _, _, _⟩ :=
    claim_C8 wState [] 50 none [wIssue, wIssue2] (by rfl)
  exact ⟨r, hr, htot, hlen (by norm_num)⟩

/-! Decimal rendering facts. -/

theorem natToDecAux_irrel (n : Nat) : ∀ f1 f2, n < f1 → n < f2 →
    natToDecAux f1 n = natToDecAux f2 n := by
  induction n using Nat.strong_induction_on with
  | _ n ih =>
    intro f1 f2 h1 h2
    cases f1 with
    | zero => omega
    | succ a =>
      cases f2 with
      | zero => omega
      | succ b =>
        simp only [natToDecAux]
        by_cases hn : n < 10
        · simp [hn]
        · have hdiv : n / 10 < n := Nat.div_lt_self (by omega) (by omega)
          simp only [if_neg hn]
          rw [ih (n / 10) hdiv a b (by omega) (by omega)]

theorem natToDec_eq (n : Nat) : natToDec n =
    if n < 10 then [digitChar n] else natToDec (n / 10) ++ [digitChar (n % 10)] := by
  unfold natToDec
  simp only [natToDecAux]
  by_cases hn : n < 10
  · simp [hn]
  · have hdiv : n / 10 < n := Nat.div_lt_self (by omega) (by omega)
    simp only [if_neg hn]
    rw [natToDecAux_irrel (n / 10) n (n / 10 + 1) (by omega) (by omega)]
    rfl

theorem digitChar_isDigit (d : Nat) : (digitChar d).isDigit = true := by
  unfold digitChar
  split <;> decide

theorem decDigit_digitChar (d : Nat) (h : d < 10) : decDigit (digitChar d) = d := by
  interval_cases d <;> decide

theorem natToDec_digits (n : Nat) : ∀ c ∈ natToDec n, c.isDigit = true := by
  induction n using Nat.strong_induction_on with
  | _ n ih =>
    rw [natToDec_eq]
    by_cases hn : n < 10
    · rw [if_pos hn]
      intro c hc
      simp only [List.mem_singleton] at hc
      subst hc
      exact digitChar_isDigit n
    · rw [if_neg hn]
      intro c hc
      rcases List.mem_append.mp hc with h | h
      · exact ih (n / 10) (Nat.div_lt_self (by omega) (by omega)) c h
      · simp only [List.mem_singleton] at h
        subst h
        exact digitChar_isDigit _

theorem natToDec_ne_nil (n : Nat) : natToDec n ≠ [] := by
  rw [natToDec_eq]
  split
  · simp
  · simp

theorem decToNat_append (ds : Str) (c : Char) :
    decToNat (ds ++ [c]) = 10 * decToNat ds + decDigit c := by
  simp [decToNat, List.foldl_append]

theorem decToNat_natToDec (n : Nat) : decToNat (natToDec n) = n := by
  induction n using Nat.strong_induction_on with
  | _ n ih =>
    rw [natToDec_eq]
    by_cases hn : n < 10
    · rw [if_pos hn]
      have h1 : decToNat [digitChar n] = decDigit (digitChar n) := by
        simp [decToNat]
      rw [h1, decDigit_digitChar n hn]
    · rw [if_neg hn, decToNat_append,
        ih (n / 10) (Nat.div_lt_self (by omega) (by omega)),
        decDigit_digitChar (n % 10) (by omega)]
      omega

theorem not_mem_of_digits (c : Char) (hc : c.isDigit = false) (ds : Str)
    (hds : ∀ x ∈ ds, x.isDigit = true) : c ∉ ds := by
  intro hm
  rw [hds c hm] at hc
  exact Bool.noConfusion hc

/-! takeWhile and findNumBefore facts. -/

theorem takeWhile_append_cons (p : Char → Bool) (ds : Str) (b : Char) (r : Str)
    (hds : ∀ c ∈ ds, p c = true) (hb : p b = false) :
    (ds ++ b :: r).takeWhile p = ds ∧ (ds ++ b :: r).dropWhile p = b :: r := by
  induction ds with
  | nil => simp [List.takeWhile_cons, List.dropWhile_cons, hb]
  | cons d ds' ih =>
    have hd : p d = true := hds d (List.mem_cons_self ..)
    have hrest : ∀ c ∈ ds', p c = true := fun c hc => hds c (List.mem_cons_of_mem _ hc)
    obtain ⟨h1, h2⟩ := ih hrest
    simp [List.takeWhile_cons, List.dropWhile_cons, hd, h1, h2]

theorem findNumBefore_cons_nondigit (c a : Char) (t : Str) (h : a.isDigit = false) :
    findNumBefore c (a :: t) = findNumBefore c t := by
  simp [findNumBefore, h]

theorem findNumBefore_hit (c : Char) (ds r : Str)
    (hne : ds ≠ []) (hds : ∀ x ∈ ds, x.isDigit = true) (hc : c.isDigit = false) :
    findNumBefore c (ds ++ c :: r) = some (decToNat ds) := by
  obtain ⟨d, ds', rfl⟩ : ∃ d ds', ds = d :: ds' := by
    cases ds with
    | nil => exact absurd rfl hne
    | cons d ds' => exact ⟨d, ds', rfl⟩
  have hd : d.isDigit = true := hds d (List.mem_cons_self ..)
  obtain ⟨ht, hdrop⟩ := takeWhile_append_cons Char.isDigit (d :: ds') c r hds hc
  rw [List.cons_append]
  simp only [findNumBefore, hd, if_true, ← List.cons_append, ht, hdrop]

theorem findNumBefore_skip (c b : Char) (ds r : Str)
    (hds : ∀ x ∈ ds, x.isDigit = true) (hbdig : b.isDigit = false) (hbc : b ≠ c) :
    findNumBefore c (ds ++ b :: r) = findNumBefore c (b :: r) := by
  induction ds with
  | nil => rfl
  | cons d ds' ih =>
    have hd : d.isDigit = true := hds d (List.mem_cons_self ..)
    have hrest : ∀ x ∈ ds', x.isDigit = true := fun x hx => hds x (List.mem_cons_of_mem _ hx)
    obtain ⟨ht, hdrop⟩ := takeWhile_append_cons Char.isDigit (d :: ds') b r hds hbdig
    rw [List.cons_append]
    simp only [findNumBefore, hd, if_true, ← List.cons_append, ht, hdrop]
    rw [if_neg hbc]
    exact ih hrest

theorem findNumBefore_not_mem (c : Char) (s : Str) (h : c ∉ s) :
    findNumBefore c s = none := by
  induction s with
  | nil => rfl
  | cons a t ih =>
    have hct : c ∉ t := fun hm => h (List.mem_cons_of_mem _ hm)
    by_cases ha : a.isDigit = true
    · simp only [findNumBefore, ha, if_true]
      cases hdrop : (a :: t).dropWhile Char.isDigit with
      | nil =>
        exact ih hct
      | cons b rest =>
        have hbmem : b ∈ a :: t := by
          have hbm : b ∈ (a :: t).dropWhile Char.isDigit := by
            rw [hdrop]
            exact List.mem_cons_self ..
          exact (List.dropWhile_sublist _).mem hbm
        have hbc : b ≠ c := fun he => h (he ▸ hbmem)
        show (if b = c then some (decToNat ((a :: t).takeWhile Char.isDigit))
          else findNumBefore c t) = none
        rw [if_neg hbc]
        exact ih hct
    · rw [findNumBefore_cons_nondigit c a t (by simpa using ha)]
      exact ih hct

/-- C9: the time-format helpers round-trip on every non-negative multiple
of 60 seconds, and in particular 0 renders as 0m which parses back to 0. -/
theorem claim_C9 :
    (∀ s : Nat, 60 ∣ s → parseTimeToSeconds (secondsToTimeStr s) = s) ∧
    secondsToTimeStr 0 = S ("0m") ∧
    parseTimeToSeconds (S ("0m")) = 0 := by
  refine ⟨?_, rfl, rfl⟩
  intro s hdvd
  by_cases hs : s = 0
  · subst hs
    rfl
  · have hsm : s % 3600 = 60 * (s % 3600 / 60) :=
      (Nat.mul_div_cancel' ((Nat.dvd_mod_iff (by norm_num)).mpr hdvd)).symm
    have hdm : 3600 * (s / 3600) + s % 3600 = s := Nat.div_add_mod s 3600
    unfold secondsToTimeStr
    rw [if_neg hs]
    by_cases hh : s / 3600 ≠ 0 ∧ s % 3600 / 60 ≠ 0
    · rw [if_pos hh]
      have hassoc : natToDec (s / 3600) ++ S ("h ") ++ natToDec (s % 3600 / 60) ++ S ("m") =
          natToDec (s / 3600) ++ 'h' :: (' ' :: (natToDec (s % 3600 / 60) ++ ['m'])) := by
        simp [S, List.append_assoc]
      rw [hassoc]
      unfold parseTimeToSeconds
      rw [if_neg (by simp [List.isEmpty_iff, natToDec_ne_nil])]
      have hw : findNumBefore 'w'
          (natToDec (s / 3600) ++ 'h' :: (' ' :: (natToDec (s % 3600 / 60) ++ ['m']))) = none := by
        refine findNumBefore_not_mem _ _ ?_
        simp only [List.mem_append, List.mem_cons]
        push_neg
        refine ⟨not_mem_of_digits _ (by decide) _ (natToDec_digits _), by decide, by decide,
          not_mem_of_digits _ (by decide) _ (natToDec_digits _), by decide⟩
      have hd : findNumBefore 'd'
          (natToDec (s / 3600) ++ 'h' :: (' ' :: (natToDec (s % 3600 / 60) ++ ['m']))) = none := by
        refine findNumBefore_not_mem _ _ ?_
        simp only [List.mem_append, List.mem_cons]
        push_neg
        refine ⟨not_mem_of_digits _ (by decide) _ (natToDec_digits _), by decide, by decide,
          not_mem_of_digits _ (by decide) _ (natToDec_digits _), by decide⟩
      have hhfind : findNumBefore 'h'
          (natToDec (s / 3600) ++ 'h' :: (' ' :: (natToDec (s % 3600 / 60) ++ ['m']))) =
            some (s / 3600) := by
        rw [findNumBefore_hit 'h' (natToDec (s / 3600)) _ (natToDec_ne_nil _)
          (natToDec_digits _) (by decide), decToNat_natToDec]
      have hmfind : findNumBefore 'm'
          (natToDec (s / 3600) ++ 'h' :: (' ' :: (natToDec (s % 3600 / 60) ++ ['m']))) =
            some (s % 3600 / 60) := by
        rw [findNumBefore_skip 'm' 'h' (natToDec (s / 3600)) _
          (natToDec_digits _) (by decide) (by decide)]
        rw [findNumBefore_cons_nondigit _ _ _ (by decide)]
        rw [findNumBefore_cons_nondigit _ _ _ (by decide)]
        rw [show natToDec (s % 3600 / 60) ++ ['m'] = natToDec (s % 3600 / 60) ++ 'm' :: [] from rfl]
        rw [findNumBefore_hit 'm' (natToDec (s % 3600 / 60)) [] (natToDec_ne_nil _)
          (natToDec_digits _) (by decide), decToNat_natToDec]
      rw [hw, hd, hhfind, hmfind]
      show 0 + 0 + s / 3600 * 3600 + s % 3600 / 60 * 60 = s
      omega
    · rw [if_neg hh]
      by_cases hH : s / 3600 ≠ 0
      · have hM : s % 3600 / 60 = 0 := by
          by_cases hM0 : s % 3600 / 60 = 0
          · exact hM0
          · exact absurd ⟨hH, hM0⟩ hh
        rw [if_pos hH]
        have hassoc : natToDec (s / 3600) ++ S ("h") = natToDec (s / 3600) ++ 'h' :: [] := rfl
        rw [hassoc]
        unfold parseTimeToSeconds
        rw [if_neg (by simp [List.isEmpty_iff, natToDec_ne_nil])]
        have hw : findNumBefore 'w' (natToDec (s / 3600) ++ 'h' :: []) = none := by
          refine findNumBefore_not_mem _ _ ?_
          simp only [List.mem_append, List.mem_cons]
          push_neg
          exact ⟨not_mem_of_digits _ (by decide) _ (natToDec_digits _), by decide, by decide⟩
        have hd : findNumBefore 'd' (natToDec (s / 3600) ++ 'h' :: []) = none := by
          refine findNumBefore_not_mem _ _ ?_
          simp only [List.mem_append, List.mem_cons]
          push_neg
          exact ⟨not_mem_of_digits _ (by decide) _ (natToDec_digits _), by decide, by decide⟩
        have hhfind : findNumBefore 'h' (natToDec (s / 3600) ++ 'h' :: []) =
            some (s / 3600) := by
          rw [findNumBefore_hit 'h' (natToDec (s / 3600)) [] (natToDec_ne_nil _)
            (natToDec_digits _) (by decide), decToNat_natToDec]
        have hmfind : findNumBefore 'm' (natToDec (s / 3600) ++ 'h' :: []) = none := by
          rw [findNumBefore_skip 'm' 'h' (natToDec (s / 3600)) []
            (natToDec_digits _) (by decide) (by decide)]
          rfl
        rw [hw, hd, hhfind, hmfind]
        show 0 + 0 + s / 3600 * 3600 + 0 = s
        omega
      · rw [if_neg hH]
        have hassoc : natToDec (s % 3600 / 60) ++ S ("m") =
            natToDec (s % 3600 / 60) ++ 'm' :: [] := rfl
        rw [hassoc]
        unfold parseTimeToSeconds
        rw [if_neg (by simp [List.isEmpty_iff, natToDec_ne_nil])]
        have hw : findNumBefore 'w' (natToDec (s % 3600 / 60) ++ 'm' :: []) = none := by
          refine findNumBefore_not_mem _ _ ?_
          simp only [List.mem_append, List.mem_cons]
          push_neg
          exact ⟨not_mem_of_digits _ (by decide) _ (natToDec_digits _), by decide, by decide⟩
        have hd : findNumBefore 'd' (natToDec (s % 3600 / 60) ++ 'm' :: []) = none := by
          refine findNumBefore_not_mem _ _ ?_
          simp only [List.mem_append, List.mem_cons]
          push_neg
          exact ⟨not_mem_of_digits _ (by decide) _ (natToDec_digits _), by decide, by decide⟩
        have hhfind : findNumBefore 'h' (natToDec (s % 3600 / 60) ++ 'm' :: []) = none := by
          rw [findNumBefore_skip 'h' 'm' (natToDec (s % 3600 / 60)) []
            (natToDec_digits _) (by decide) (by decide)]
          rfl
        have hmfind : findNumBefore 'm' (natToDec (s % 3600 / 60) ++ 'm' :: []) =
            some (s % 3600 / 60) := by
          rw [findNumBefore_hit 'm' (natToDec (s % 3600 / 60)) [] (natToDec_ne_nil _)
            (natToDec_digits _) (by decide), decToNat_natToDec]
        rw [hw, hd, hhfind, hmfind]
        show 0 + 0 + 0 + s % 3600 / 60 * 60 = s
        omega

/-- C9 witness: 9300 seconds renders as 2h 35m and parses back to 9300. -/
theorem claim_C9_witness : parseTimeToSeconds (secondsToTimeStr 9300) = 9300 := by
  exact claim_C9.1 9300 (by norm_num)

/-! Issue-key freshness facts. -/

theorem keyNum_append (a ds : Str) (hne : ds ≠ []) (hds : ∀ c ∈ ds, c.isDigit = true) :
    keyNum (a ++ '-' :: ds) = some (decToNat ds) := by
  have hrev : (a ++ '-' :: ds).reverse = ds.reverse ++ '-' :: a.reverse := by
    simp [List.reverse_append]
  have hds' : ∀ c ∈ ds.reverse, Char.isDigit c = true :=
    fun c hc => hds c (List.mem_reverse.mp hc)
  obtain ⟨ht, hdrop⟩ :=
    takeWhile_append_cons Char.isDigit ds.reverse '-' a.reverse hds' (by decide)
  have hrne : ds.reverse ≠ [] := by
    simpa using hne
  simp only [keyNum, hrev, ht, hdrop]
  rw [if_pos ⟨hrne, rfl⟩, List.reverse_reverse]

theorem keyBound_fresh (st : State) (K : Str) (n : Nat)
    (hb : keyBound st = true) (hk : keyNum K = some n) (hn : st.nextIssueId < n) :
    dictGet st.issues K = none := by
  cases hg : dictGet st.issues K with
  | none => rfl
  | some i =>
    have hmem := dictGet_mem hg
    have hall := (List.all_eq_true.mp hb) _ hmem
    rw [hk] at hall
    simp only [decide_eq_true_eq] at hall
    omega

theorem mapPriorityId_ok (F : List (Str × JVal)) (hq : prioOk F = true) :
    ∃ pid, mapPriorityId
      (match dictGetD F (S ("priority")) (.obj []) with
       | .obj kvs => dictGetD kvs (S ("name")) (.str (S ("Medium")))
       | _ => .str (S ("Medium")))
      (match dictGetD F (S ("priority")) (.obj []) with
       | .obj kvs => dictGetD kvs (S ("id")) (.str (S ("3")))
       | _ => .str (S ("3"))) = .ok pid := by
  unfold prioOk at hq
  cases hP : dictGetD F (S ("priority")) (.obj []) with
  | obj kvs =>
    simp only [hP] at hq
    cases hN : dictGetD kvs (S ("name")) (.str (S ("Medium"))) with
    | null =>
      simp only [hP, hN]
      exact ⟨_, rfl⟩
    | bool b =>
      simp only [hP, hN]
      exact ⟨_, rfl⟩
    | num n =>
      simp only [hP, hN]
      exact ⟨_, rfl⟩
    | str s =>
      simp only [hP, hN]
      exact ⟨_, rfl⟩
    | arr xs =>
      simp only [hN] at hq
      exact Bool.noConfusion hq
    | obj kvs2 =>
      simp only [hN] at hq
      exact Bool.noConfusion hq
  | null =>
    simp only [hP]
    exact ⟨_, rfl⟩
  | bool b =>
    simp only [hP]
    exact ⟨_, rfl⟩
  | num n =>
    simp only [hP]
    exact ⟨_, rfl⟩
  | str s =>
    simp only [hP]
    exact ⟨_, rfl⟩
  | arr xs =>
    simp only [hP]
    exact ⟨_, rfl⟩

/-- C4 (amended): provided the fields dict's "project" entry, when present,
is itself a dict, the priority name it yields is hashable (not a list or a
dict, which would make the membership test in the priority-id map raise
TypeError), and the store's key suffixes are bounded by the counter
(true of the seeded store and preserved by the client), create_issue
returns a key K absent from the store beforehand; get_issue(K) then yields
an issue whose key is K, whose status is the To Do object and whose summary
is the given one (or "New Issue"); and after delete_issue(K), get_issue(K)
raises NotFoundError.  The original claim quantified over every fields
dict, but a non-dict "project" value (e.g. None) makes create_issue raise
AttributeError. -/
theorem claim_C4 (st : State) (F : List (Str × JVal))
    (hb : keyBound st = true) (hp : projOk F = true) (hq : prioOk F = true) :
    ∃ K res st1,
      createIssue st F = (.ok res, st1) ∧
      jIndex res (S ("key")) = .ok (.str K) ∧
      dictContains st.issues K = false ∧
      (getIssue st1 K).1.map Issue.key = .ok K ∧
      (getIssue st1 K).1.map (fun i => dictGet i.fields (S ("status"))) =
        .ok (some statusToDo) ∧
      (getIssue st1 K).1.map (fun i => dictGet i.fields (S ("summary"))) =
        .ok (some (dictGetD F (S ("summary")) (.str (S ("New Issue"))))) ∧
      (getIssue (deleteIssue st1 K).2 K).1 = .error (issueNotFound K) := by
  have hpk : ∃ pk, pyGetD (dictGetD F (S ("project")) (.obj []))
      (S ("key")) (.str (S ("DEMO"))) = .ok pk := by
    unfold projOk at hp
    cases hF : dictGet F (S ("project")) with
    | none =>
      refine ⟨dictGetD [] (S ("key")) (.str (S ("DEMO"))), ?_⟩
      simp [dictGetD, hF, pyGetD]
    | some v =>
      rw [hF] at hp
      cases v with
      | obj kvs =>
        refine ⟨dictGetD kvs (S ("key")) (.str (S ("DEMO"))), ?_⟩
        simp [dictGetD, hF, pyGetD]
      | null => simp at hp
      | bool b => simp at hp
      | num n => simp at hp
      | str s => simp at hp
      | arr xs => simp at hp
  obtain ⟨pk, hpk⟩ := hpk
  have hKfresh : dictGet st.issues (pyStr pk ++ '-' :: natToDec (st.nextIssueId + 1)) =
      none := by
    refine keyBound_fresh st _ (st.nextIssueId + 1) hb ?_ (by omega)
    rw [keyNum_append (pyStr pk) (natToDec (st.nextIssueId + 1))
      (natToDec_ne_nil _) (natToDec_digits _)]
    rw [decToNat_natToDec]
  obtain ⟨pid, hpid⟩ := mapPriorityId_ok F hq
  simp only [createIssue, hpk, hpid]
  refine ⟨pyStr pk ++ '-' :: natToDec (st.nextIssueId + 1), _, _, rfl, ?_, ?_, ?_, ?_, ?_, ?_⟩
  · rfl
  · simp [dictContains, hKfresh]
  · simp only [getIssue, dictGet_dictSet_self]
    rfl
  · simp only [getIssue, dictGet_dictSet_self]
    rfl
  · simp only [getIssue, dictGet_dictSet_self]
    rfl
  · simp only [deleteIssue, getIssue, dictGet_dictSet_self, dictGet_dictRemove_self]

/-- C4 counterexample: the claim as stated quantifies over every fields
dict, yet create_issue({"project": None}) raises AttributeError instead of
returning a key. -/
theorem claim_C4_counterexample :
    (createIssue wState [(S ("project"), JVal.null)]).1 =
      .error (.pyAttributeError (S ("object has no attribute get"))) := by
  rfl

/-- C4 witness: creating an issue on the two-issue store yields a fresh
key that reads back and disappears on deletion. -/
theorem claim_C4_witness :
    ∃ K res st1,
      createIssue wState [(S ("summary"), .str (S ("Hi")))] = (.ok res, st1) ∧
      dictContains wState.issues K = false ∧
      (getIssue (deleteIssue st1 K).2 K).1 = .error (issueNotFound K) := by
  obtain ⟨K, res, st1, hcr, _, hfresh, _, _, _, hdel⟩ :=
    claim_C4 wState [(S ("summary"), .str (S ("Hi")))] (by decide) (by decide) (by decide)
  exact ⟨K, res, st1, hcr, hfresh, hdel⟩

/-! Substring characterisation facts. -/

theorem startsWith_exists {s pat : Str} (h : startsWith s pat = true) :
    ∃ y, s = pat ++ y := by
  induction pat generalizing s with
  | nil => exact ⟨s, rfl⟩
  | cons p ps ih =>
    cases s with
    | nil => simp [startsWith] at h
    | cons c t =>
      simp only [startsWith, Bool.and_eq_true, decide_eq_true_eq] at h
      obtain ⟨y, hy⟩ := ih h.2
      exact ⟨y, by rw [List.cons_append, ← hy, h.1]⟩

theorem startsWith_append_self (pat y : Str) : startsWith (pat ++ y) pat = true := by
  induction pat with
  | nil => cases y <;> rfl
  | cons p ps ih => simp [startsWith, ih]

theorem startsWith_take (l : Str) (n : Nat) : startsWith l (l.take n) = true := by
  induction l generalizing n with
  | nil => cases n <;> rfl
  | cons c t ih =>
    cases n with
    | zero => rfl
    | succ n => simp [List.take_succ_cons, startsWith, ih]

theorem containsSub_cons (c : Char) (t pat : Str) :
    containsSub (c :: t) pat = (startsWith (c :: t) pat || containsSub t pat) := by
  rfl

theorem containsSub_of_startsWith {s pat : Str} (h : startsWith s pat = true) :
    containsSub s pat = true := by
  cases s with
  | nil =>
    cases pat with
    | nil => rfl
    | cons p ps => simp [startsWith] at h
  | cons c t =>
    rw [containsSub_cons, h]
    rfl

theorem containsSub_exists {s pat : Str} :
    containsSub s pat = true ↔ ∃ x y, s = x ++ pat ++ y := by
  constructor
  · intro h
    induction s with
    | nil =>
      cases pat with
      | nil => exact ⟨[], [], rfl⟩
      | cons p ps => simp [containsSub, startsWith] at h
    | cons c t ih =>
      rw [containsSub_cons] at h
      rcases Bool.or_eq_true_iff.mp h with h1 | h1
      · obtain ⟨y, hy⟩ := startsWith_exists h1
        exact ⟨[], y, by simpa using hy⟩
      · obtain ⟨x, y, hxy⟩ := ih h1
        exact ⟨c :: x, y, by simp [hxy]⟩
  · rintro ⟨x, y, rfl⟩
    induction x with
    | nil => exact containsSub_of_startsWith (by simpa using startsWith_append_self pat y)
    | cons a x ih =>
      have hx : a :: x ++ pat ++ y = a :: (x ++ pat ++ y) := by simp
      rw [hx, containsSub_cons, ih]
      simp

theorem containsSub_trans {s p1 p2 : Str} (h2 : containsSub s p2 = true)
    (h1 : containsSub p2 p1 = true) : containsSub s p1 = true := by
  obtain ⟨x, y, rfl⟩ := containsSub_exists.mp h2
  obtain ⟨a, b, rfl⟩ := containsSub_exists.mp h1
  refine containsSub_exists.mpr ⟨x ++ a, b ++ y, by simp⟩

theorem containsSub_mono_false (p2 p1 s : Str) (hsub : containsSub p2 p1 = true)
    (h : containsSub s p1 = false) : containsSub s p2 = false := by
  cases hc : containsSub s p2 with
  | false => rfl
  | true => exact absurd (containsSub_trans hc hsub) (by simp [h])

theorem replaceAux_no_occur (pat rep : Str) :
    ∀ f s, s.length ≤ f → containsSub s pat = false → replaceAux pat rep f s = s := by
  intro f
  induction f with
  | zero =>
    intro s _ _
    rfl
  | succ f ih =>
    intro s hl hc
    cases s with
    | nil => rfl
    | cons c t =>
      rw [containsSub_cons] at hc
      have hc1 : startsWith (c :: t) pat = false := by
        cases hx : startsWith (c :: t) pat
        · rfl
        · rw [hx] at hc
          simp at hc
      have hc2 : containsSub t pat = false := by
        cases hx : containsSub t pat
        · rfl
        · rw [hx] at hc
          simp at hc
      show replaceAux pat rep (f + 1) (c :: t) = c :: t
      simp only [replaceAux]
      rw [if_neg (fun hand => absurd hand.2 (by simp [hc1]))]
      rw [ih t (by simpa using Nat.le_of_succ_le_succ hl) hc2]

theorem replaceSub_no_occur (s pat rep : Str) (h : containsSub s pat = false) :
    replaceSub s pat rep = s :=
  replaceAux_no_occur pat rep s.length s le_rfl h

theorem findKwThen_contains (kw : Str) (after : Str → Option Str) :
    ∀ s r, findKwThen kw after s = some r → containsSub (up s) kw = true := by
  intro s
  induction s with
  | nil =>
    intro r h
    exact absurd h (by simp [findKwThen])
  | cons c t ih =>
    intro r h
    by_cases hcond : up ((c :: t).take kw.length) = kw
    · refine containsSub_of_startsWith ?_
      rw [← hcond]
      rw [show up ((c :: t).take kw.length) = (up (c :: t)).take kw.length from by
        rw [up, up, List.map_take]]
      exact startsWith_take (up (c :: t)) kw.length
    · have h' : findKwThen kw after t = some r := by
        simpa only [findKwThen, if_neg hcond] using h
      have ht := ih r h'
      show containsSub (Char.toUpper c :: up t) kw = true
      rw [containsSub_cons, ht]
      simp

theorem findKwThen_none (kw : Str) (after : Str → Option Str) (s : Str)
    (h : containsSub (up s) kw = false) : findKwThen kw after s = none := by
  cases hf : findKwThen kw after s with
  | none => rfl
  | some r => exact absurd (findKwThen_contains kw after s r hf) (by simp [h])

/-- C3 (amended): when the upper-cased query triggers no filter other than
the project one — it contains none of the recognized filter keywords
assignee, type (hence issuetype, which search_issues also produces by
normalising "type =" clauses), status, priority, reporter, text, summary,
epic link, parent, sprint — then: a query naming project DEMO (and not
DEMOSD) returns exactly the first 50 (the default max_results) of the
stored issues whose key starts with DEMO- but not DEMOSD-, in insertion
order, and a query naming project DEMOSD returns exactly the first 50 of
those whose key starts with DEMOSD-. -/
theorem claim_C3 (st : State) (q : Str)
    (hType : containsSub (up q) (S ("TYPE")) = false)
    (hAssignee : containsSub (up q) (S ("ASSIGNEE")) = false)
    (hStatus : containsSub (up q) (S ("STATUS")) = false)
    (hPriority : containsSub (up q) (S ("PRIORITY")) = false)
    (hReporter : containsSub (up q) (S ("REPORTER")) = false)
    (hText : containsSub (up q) (S ("TEXT")) = false)
    (hSummary : containsSub (up q) (S ("SUMMARY")) = false)
    (hEpic : containsSub (up q) (S ("EPIC LINK")) = false)
    (hParent : containsSub (up q) (S ("PARENT")) = false)
    (hSprint : containsSub (up q) (S ("SPRINT")) = false) :
    ((containsSub (up q) (S ("PROJECT = DEMO")) ||
        containsSub (up q) (S ("PROJECT=DEMO"))) = true →
      containsSub (up q) (S ("PROJECT = DEMOSD")) = false →
      containsSub (up q) (S ("PROJECT=DEMOSD")) = false →
      ∃ r, searchIssuesE st q 50 none = .ok r ∧
        r.issues = ((st.issues.map Prod.snd).filter
          (fun i => startsWith i.key (S ("DEMO-")) &&
            !startsWith i.key (S ("DEMOSD-")))).take 50) ∧
    ((containsSub (up q) (S ("PROJECT = DEMOSD")) ||
        containsSub (up q) (S ("PROJECT=DEMOSD"))) = true →
      ∃ r, searchIssuesE st q 50 none = .ok r ∧
        r.issues = ((st.issues.map Prod.snd).filter
          (fun i => startsWith i.key (S ("DEMOSD-")))).take 50) := by
  have hrepl : replaceSub (replaceSub (up q) (S ("TYPE =")) (S ("ISSUETYPE =")))
      (S ("TYPE=")) (S ("ISSUETYPE=")) = up q := by
    rw [replaceSub_no_occur _ _ _ (containsSub_mono_false _ (S ("TYPE")) _ (by decide) hType)]
    exact replaceSub_no_occur _ _ _ (containsSub_mono_false _ (S ("TYPE")) _ (by decide) hType)
  have hB1 : containsSub (up q) (S ("ISSUETYPE = BUG")) = false :=
    containsSub_mono_false _ (S ("TYPE")) _ (by decide) hType
  have hB2 : containsSub (up q) (S ("ISSUETYPE=BUG")) = false :=
    containsSub_mono_false _ (S ("TYPE")) _ (by decide) hType
  have hS1 : containsSub (up q) (S ("ISSUETYPE = STORY")) = false :=
    containsSub_mono_false _ (S ("TYPE")) _ (by decide) hType
  have hS2 : containsSub (up q) (S ("ISSUETYPE=STORY")) = false :=
    containsSub_mono_false _ (S ("TYPE")) _ (by decide) hType
  have hE1 : containsSub (up q) (S ("ISSUETYPE = EPIC")) = false :=
    containsSub_mono_false _ (S ("TYPE")) _ (by decide) hType
  have hE2 : containsSub (up q) (S ("ISSUETYPE=EPIC")) = false :=
    containsSub_mono_false _ (S ("TYPE")) _ (by decide) hType
  have hT1 : containsSub (up q) (S ("ISSUETYPE = TASK")) = false :=
    containsSub_mono_false _ (S ("TYPE")) _ (by decide) hType
  have hT2 : containsSub (up q) (S ("ISSUETYPE=TASK")) = false :=
    containsSub_mono_false _ (S ("TYPE")) _ (by decide) hType
  have hSt1 : containsSub (up q) (S ("STATUS != DONE")) = false :=
    containsSub_mono_false _ (S ("STATUS")) _ (by decide) hStatus
  have hSt2 : containsSub (up q) (S ("STATUS!=DONE")) = false :=
    containsSub_mono_false _ (S ("STATUS")) _ (by decide) hStatus
  have hSt3 : containsSub (up q) (S ("STATUS <> DONE")) = false :=
    containsSub_mono_false _ (S ("STATUS")) _ (by decide) hStatus
  have hSt4 : containsSub (up q) (S ("STATUS = \"IN PROGRESS\"")) = false :=
    containsSub_mono_false _ (S ("STATUS")) _ (by decide) hStatus
  have hSt5 : containsSub (up q) (S ("STATUS=\"IN PROGRESS\"")) = false :=
    containsSub_mono_false _ (S ("STATUS")) _ (by decide) hStatus
  have hSt6 : containsSub (up q) (S ("STATUS = \"TO DO\"")) = false :=
    containsSub_mono_false _ (S ("STATUS")) _ (by decide) hStatus
  have hSt7 : containsSub (up q) (S ("STATUS=\"TO DO\"")) = false :=
    containsSub_mono_false _ (S ("STATUS")) _ (by decide) hStatus
  have hSt8 : containsSub (up q) (S ("STATUS = OPEN")) = false :=
    containsSub_mono_false _ (S ("STATUS")) _ (by decide) hStatus
  have hSt9 : containsSub (up q) (S ("STATUS=OPEN")) = false :=
    containsSub_mono_false _ (S ("STATUS")) _ (by decide) hStatus
  have hP1 : containsSub (up q) (S ("PRIORITY = HIGH")) = false :=
    containsSub_mono_false _ (S ("PRIORITY")) _ (by decide) hPriority
  have hP2 : containsSub (up q) (S ("PRIORITY=HIGH")) = false :=
    containsSub_mono_false _ (S ("PRIORITY")) _ (by decide) hPriority
  have hP3 : containsSub (up q) (S ("PRIORITY = MEDIUM")) = false :=
    containsSub_mono_false _ (S ("PRIORITY")) _ (by decide) hPriority
  have hP4 : containsSub (up q) (S ("PRIORITY=MEDIUM")) = false :=
    containsSub_mono_false _ (S ("PRIORITY")) _ (by decide) hPriority
  have hP5 : containsSub (up q) (S ("PRIORITY = LOW")) = false :=
    containsSub_mono_false _ (S ("PRIORITY")) _ (by decide) hPriority
  have hP6 : containsSub (up q) (S ("PRIORITY=LOW")) = false :=
    containsSub_mono_false _ (S ("PRIORITY")) _ (by decide) hPriority
  have hTextN : findKwThen (S ("TEXT")) matchTildeAt q = none :=
    findKwThen_none _ _ _ hText
  have hSummaryN : findKwThen (S ("SUMMARY")) matchTildeAt q = none :=
    findKwThen_none _ _ _ hSummary
  have hEpicN : findKwThen (S ("\"EPIC LINK\"")) matchEqKeyAt q = none :=
    findKwThen_none _ _ _
      (containsSub_mono_false _ (S ("EPIC LINK")) _ (by decide) hEpic)
  have hParentN : findKwThen (S ("PARENT")) matchEqKeyAt q = none :=
    findKwThen_none _ _ _ hParent
  constructor
  · intro hdemo hsd1 hsd2
    have hfilters : applyFilters st q = .ok ((st.issues.map Prod.snd).filter
        (fun i => startsWith i.key (S ("DEMO-")) && !startsWith i.key (S ("DEMOSD-")))) := by
      simp only [applyFilters, hrepl, hdemo, hsd1, hsd2, hAssignee, hB1, hB2, hS1, hS2,
        hE1, hE2, hT1, hT2, hSt1, hSt2, hSt3, hSt4, hSt5, hSt6, hSt7, hSt8, hSt9,
        hP1, hP2, hP3, hP4, hP5, hP6, hReporter, hSprint, hTextN, hSummaryN, hEpicN,
        hParentN]
      rfl
    refine ⟨_, searchIssuesE_ok st q 50 none _ hfilters, ?_⟩
    show pySlice _ ((none : Option Int).getD 0) ((none : Option Int).getD 0 + 50) = _
    rw [show ((none : Option Int).getD 0) = 0 from rfl]
    rw [show ((0 : Int) + 50) = 50 from by norm_num]
    rw [pySlice_zero _ 50 (by norm_num)]
    rfl
  · intro hsd
    have hfilters : applyFilters st q = .ok ((st.issues.map Prod.snd).filter
        (fun i => startsWith i.key (S ("DEMOSD-")))) := by
      simp only [applyFilters, hrepl, hsd, hAssignee, hB1, hB2, hS1, hS2,
        hE1, hE2, hT1, hT2, hSt1, hSt2, hSt3, hSt4, hSt5, hSt6, hSt7, hSt8, hSt9,
        hP1, hP2, hP3, hP4, hP5, hP6, hReporter, hSprint, hTextN, hSummaryN, hEpicN,
        hParentN]
      rfl
    refine ⟨_, searchIssuesE_ok st q 50 none _ hfilters, ?_⟩
    show pySlice _ ((none : Option Int).getD 0) ((none : Option Int).getD 0 + 50) = _
    rw [show ((none : Option Int).getD 0) = 0 from rfl]
    rw [show ((0 : Int) + 50) = 50 from by norm_num]
    rw [pySlice_zero _ 50 (by norm_num)]
    rfl

/-- C3 counterexample: the query "project = DEMO AND type = Bug" satisfies
every condition of the claim as frozen — it names project DEMO, no DEMOSD,
and contains none of the claim's listed keywords (assignee, issuetype,
status, priority, reporter, text, summary, epic link, parent, sprint) —
yet search_issues normalises its TYPE clause to ISSUETYPE and returns only
the Bug issue DEMO-1 of the two-issue store instead of all DEMO issues. -/
theorem claim_C3_counterexample :
    containsSub (up qC3) (S ("PROJECT = DEMO")) = true ∧
    containsSub (up qC3) (S ("PROJECT = DEMOSD")) = false ∧
    containsSub (up qC3) (S ("PROJECT=DEMOSD")) = false ∧
    containsSub (up qC3) (S ("ASSIGNEE")) = false ∧
    containsSub (up qC3) (S ("ISSUETYPE")) = false ∧
    containsSub (up qC3) (S ("STATUS")) = false ∧
    containsSub (up qC3) (S ("PRIORITY")) = false ∧
    containsSub (up qC3) (S ("REPORTER")) = false ∧
    containsSub (up qC3) (S ("TEXT")) = false ∧
    containsSub (up qC3) (S ("SUMMARY")) = false ∧
    containsSub (up qC3) (S ("EPIC LINK")) = false ∧
    containsSub (up qC3) (S ("PARENT")) = false ∧
    containsSub (up qC3) (S ("SPRINT")) = false ∧
    (searchIssuesE wState qC3 50 none).map (fun r => r.issues.map Issue.key) =
      .ok [S ("DEMO-1")] ∧
    ((wState.issues.map Prod.snd).filter
      (fun i => startsWith i.key (S ("DEMO-")) && !startsWith i.key (S ("DEMOSD-")))).map
        Issue.key = [S ("DEMO-1"), S ("DEMO-2")] := by
  refine ⟨by decide, by decide, by decide, by decide, by decide, by decide, by decide,
    by decide, by decide, by decide, by decide, by decide, by decide, by rfl, by rfl⟩

/-- C3 witness: the amended claim applied to the plain query
"project = DEMO" on the two-issue store. -/
theorem claim_C3_witness :
    ∃ r, searchIssuesE wState (S ("project = DEMO")) 50 none = .ok r ∧
      r.issues.map Issue.key = [S ("DEMO-1"), S ("DEMO-2")] := by
  obtain ⟨h1, _⟩ := claim_C3 wState (S ("project = DEMO")) (by decide) (by decide)
    (by decide) (by decide) (by decide) (by decide) (by decide) (by decide)
    (by decide) (by decide)
  obtain ⟨r, hr, hiss⟩ := h1 (by decide) (by decide) (by decide)
  refine ⟨r, hr, ?_⟩
  rw [hiss]
  rfl

end JiraMock
